import Mathlib

/-!
# Verification of the sun-optimizer computational core

Shallow embedding of the repository's computational engine:

* `src/lib/utils/calculations.ts` — UV risk classification
  (`getUVRiskLevel`), the optimal-exposure-window search
  (`calculateOptimalTime` with `findContiguousWindows` and
  `addHourToTimeString`), and golden-hour bounds (`calculateGoldenHour`);
* `src/lib/constants.ts` — the threshold tables;
* `src/unnamed/part_016` — the solar-position calculator
  (`getSunPosition`, `getJulianDay`), modelled over the real numbers.

Conventions of the embedding:

* TypeScript `number` values carrying UV indices, hours and minutes are
  modelled as exact rationals (`ℚ`) or integers (`ℤ`); the solar
  ephemeris, whose code is floating-point trigonometry, is modelled over
  `ℝ` with `Real.sin`/`Real.cos`/`Real.arccos` in place of `Math.*`.
  Numeric literals of the source are read as exact rationals.
* Time-of-day strings are modelled as Lean `String`s; the two regular
  expressions of the source (`^(.+T)(\d{2}):(\d{2})(.*)$` with a greedy
  leading group, and the unanchored `/T(\d{2}):(\d{2})/`) are implemented
  by explicit scans over the character list.  (The strings handled here
  never contain line terminators, so `.` is treated as "any character".)
* `Array.prototype.sort` with comparator `(a, b) => a.hour - b.hour` is a
  stable ascending sort by `hour` (ES2019 requires sort stability); it is
  modelled by the stable `List.insertionSort`.
* `addHourToTimeString` falls back to the external `date-fns` library
  when its regular expression does not match; that library is not part of
  the repository, so the fallback is a parameter `fallback` of the
  embedding and every result is proved for an arbitrary fallback.
-/

namespace SunOpt

/-- `HourlyUV` from `src/types/index.ts`: one hourly UV sample. -/
structure HourlyUV where
  time : String
  hour : ℤ
  uv : ℚ
deriving Repr, DecidableEq, Inhabited

/-- `UVRiskLevel` from `src/types/index.ts`. -/
inductive UVRiskLevel where
  | low
  | moderate
  | high
  | veryHigh
  | extreme
deriving Repr, DecidableEq, Inhabited

/-- Position of a risk level in the total order low < moderate < high <
very-high < extreme (increasing UV). -/
def UVRiskLevel.rank : UVRiskLevel → ℕ
  | .low => 0
  | .moderate => 1
  | .high => 2
  | .veryHigh => 3
  | .extreme => 4

/-- `UV_THRESHOLDS.LOW.max` from `src/lib/constants.ts`. -/
def UV_THRESHOLDS_LOW_max : ℚ := 3

/-- `UV_THRESHOLDS.MODERATE.max` from `src/lib/constants.ts`. -/
def UV_THRESHOLDS_MODERATE_max : ℚ := 6

/-- `UV_THRESHOLDS.HIGH.max` from `src/lib/constants.ts`. -/
def UV_THRESHOLDS_HIGH_max : ℚ := 8

/-- `UV_THRESHOLDS.VERY_HIGH.max` from `src/lib/constants.ts`. -/
def UV_THRESHOLDS_VERY_HIGH_max : ℚ := 11

/-- `OPTIMAL_UV_RANGE.min` from `src/lib/constants.ts`. -/
def OPTIMAL_UV_RANGE_min : ℚ := 3

/-- `OPTIMAL_UV_RANGE.max` from `src/lib/constants.ts`. -/
def OPTIMAL_UV_RANGE_max : ℚ := 7

/-- `getUVRiskLevel` from `src/lib/utils/calculations.ts`. -/
def getUVRiskLevel (uvIndex : ℚ) : UVRiskLevel :=
  if uvIndex < UV_THRESHOLDS_LOW_max then .low
  else if uvIndex < UV_THRESHOLDS_MODERATE_max then .moderate
  else if uvIndex < UV_THRESHOLDS_HIGH_max then .high
  else if uvIndex < UV_THRESHOLDS_VERY_HIGH_max then .veryHigh
  else .extreme

/-! ## Time-string helpers -/

/-- Numeric value of a decimal digit character (`parseInt` on digits). -/
def digitVal (c : Char) : ℕ := c.toNat - '0'.toNat

/-- `String(n).padStart(2, "0")` for a string `s = String(n)`:
pad on the left with `'0'` up to length 2. -/
def padStart2 (s : String) : String :=
  if s.length ≥ 2 then s
  else if s.length = 1 then "0" ++ s
  else "00"

/-- The match `timeStr.match(/^(.+T)(\d{2}):(\d{2})(.*)$/)` of
`addHourToTimeString`, on the character list.  The leading `(.+)` is
greedy, so the regex engine commits to the *last* position at which
`T\d\d:\d\d` can be read; the returned tuple is (group 1 = everything up
to and including that `T`, hour value = `parseInt` of the two hour
digits, the two minute digit characters = group 3, the remaining
characters = group 4).  A match whose `T` is the first character is
rejected by the caller (the `.+` needs at least one character). -/
def lastTimeMatch : List Char → Option (List Char × ℕ × Char × Char × List Char)
  | [] => none
  | c :: rest =>
    match lastTimeMatch rest with
    | some (pre, h, m1, m2, suf) => some (c :: pre, h, m1, m2, suf)
    | none =>
      if c = 'T' then
        match rest with
        | d1 :: d2 :: ':' :: d3 :: d4 :: suf =>
          if d1.isDigit ∧ d2.isDigit ∧ d3.isDigit ∧ d4.isDigit then
            some ([c], 10 * digitVal d1 + digitVal d2, d3, d4, suf)
          else none
        | _ => none
      else none

/-- `addHourToTimeString` from `src/lib/utils/calculations.ts`.  When the
regex matches, the hour field is replaced by `(hour + 1) % 24`; otherwise
the code calls into the external `date-fns` library, modelled by the
`fallback` parameter. -/
def addHourToTimeString (fallback : String → String) (timeStr : String) : String :=
  match lastTimeMatch timeStr.data with
  | some (pre, h, m1, m2, suf) =>
    if 2 ≤ pre.length then
      ⟨pre ++ (padStart2 (toString ((h + 1) % 24))).data ++ ':' :: m1 :: m2 :: suf⟩
    else fallback timeStr
  | none => fallback timeStr

/-! ## Contiguous windows -/

/-- The stable ascending sort `[...hours].sort((a, b) => a.hour - b.hour)`. -/
def sortByHour (hours : List HourlyUV) : List HourlyUV :=
  hours.insertionSort (fun a b => a.hour ≤ b.hour)

/-- Loop body of `findContiguousWindows`: `prev` is the previously pushed
sample, `cur` the current window accumulated in reverse, and the third
argument the samples still to process. -/
def findContiguousWindowsAux (prev : HourlyUV) (cur : List HourlyUV) :
    List HourlyUV → List (List HourlyUV)
  | [] => [cur.reverse]
  | x :: xs =>
    if x.hour = prev.hour + 1 then findContiguousWindowsAux x (x :: cur) xs
    else cur.reverse :: findContiguousWindowsAux x [x] xs

/-- `findContiguousWindows` from `src/lib/utils/calculations.ts` (each
TypeScript window object `{hours: [...]}` is modelled by its list). -/
def findContiguousWindows (hours : List HourlyUV) : List (List HourlyUV) :=
  match sortByHour hours with
  | [] => []
  | x :: xs => findContiguousWindowsAux x [x] xs

/-! ## The optimal-window search -/

/-- `OptimalTimeRecommendation` from `src/types/index.ts`, restricted to
the fields the analysis computes structurally.  The localized `reason`
sentence and the `reasonParams` map only interpolate
`peakHour.uv.toFixed(1)` into display text and are not modelled. -/
structure OptimalTimeRecommendation where
  startTime : String
  endTime : String
  uvMin : ℚ
  uvMax : ℚ
  reasonKey : String
  duration : ℕ
  isGoodForVitaminD : Bool
deriving Repr, DecidableEq, Inhabited

/-- `Math.min(...values)` over a window's UV values.  Every window the
code builds is nonempty, so the empty case (JS `Infinity`) is a junk
value that is never reached. -/
def jsMinQ : List ℚ → ℚ
  | [] => 0
  | x :: xs => xs.foldl min x

/-- `Math.max(...values)`; see `jsMinQ`. -/
def jsMaxQ : List ℚ → ℚ
  | [] => 0
  | x :: xs => xs.foldl max x

/-- `hours[0].time` of a nonempty window (the code never reads it from an
empty one). -/
def headTimeD : List HourlyUV → String
  | [] => ""
  | x :: _ => x.time

/-- `hours[0].hour` of a nonempty window. -/
def headHourD : List HourlyUV → ℤ
  | [] => 0
  | x :: _ => x.hour

/-- `hours[hours.length - 1].time` of a nonempty window. -/
def lastTimeD : List HourlyUV → String
  | [] => ""
  | [x] => x.time
  | _ :: x :: xs => lastTimeD (x :: xs)

/-- The result record every branch of `calculateOptimalTime` builds from
its selected window `w`: `startTime` from the first sample, `endTime` one
hour past the last sample, `uvRange` over exactly `w`'s samples, and
`duration = w.length * 60` minutes. -/
def windowResult (fallback : String → String) (w : List HourlyUV)
    (key : String) (good : Bool) : OptimalTimeRecommendation :=
  { startTime := headTimeD w
    endTime := addHourToTimeString fallback (lastTimeD w)
    uvMin := jsMinQ (w.map (·.uv))
    uvMax := jsMaxQ (w.map (·.uv))
    reasonKey := key
    duration := w.length * 60
    isGoodForVitaminD := good }

/-- `daylightHours.reduce((prev, curr) => curr.uv > prev.uv ? curr : prev)`:
JavaScript `reduce` without an initial value folds the tail over the
head. -/
def jsReduceMaxUV (d : HourlyUV) (ds : List HourlyUV) : HourlyUV :=
  ds.foldl (fun prev curr => if curr.uv > prev.uv then curr else prev) d

/-- `windows.reduce((prev, curr) => curr.hours.length > prev.hours.length ? curr : prev)`. -/
def jsReduceLongest (w : List HourlyUV) (ws : List (List HourlyUV)) : List HourlyUV :=
  ws.foldl (fun prev curr => if curr.length > prev.length then curr else prev) w

/-- The predicate of the daylight filter `h.hour >= 6 && h.hour <= 20`. -/
def isDaylight (h : HourlyUV) : Bool := decide (6 ≤ h.hour ∧ h.hour ≤ 20)

/-- The Case A filter `h.uv >= OPTIMAL_UV_RANGE.min && h.uv <= OPTIMAL_UV_RANGE.max`. -/
def isOptimalUV (h : HourlyUV) : Bool :=
  decide (OPTIMAL_UV_RANGE_min ≤ h.uv ∧ h.uv ≤ OPTIMAL_UV_RANGE_max)

/-- The `allLow` test `h.uv < OPTIMAL_UV_RANGE.min`. -/
def isBelowOptimal (h : HourlyUV) : Bool := decide (h.uv < OPTIMAL_UV_RANGE_min)

/-- The Case B "meaningful hour" filter `h.uv >= 1.0`. -/
def isMeaningfulUV (h : HourlyUV) : Bool := decide ((1 : ℚ) ≤ h.uv)

/-- The Case C "safe hour" filter `h.uv >= 2 && h.uv <= OPTIMAL_UV_RANGE.max`. -/
def isSafeUV (h : HourlyUV) : Bool :=
  decide ((2 : ℚ) ≤ h.uv ∧ h.uv ≤ OPTIMAL_UV_RANGE_max)

/-- The Case D filter `h.hour >= 7 && h.hour <= 9`. -/
def isEarlyHour (h : HourlyUV) : Bool := decide (7 ≤ h.hour ∧ h.hour ≤ 9)

/-- `w.hours.some(h => h.hour === peakHour.hour)` — the Case B window test. -/
def hasPeakHour (peakHour : HourlyUV) (wh : List HourlyUV) : Bool :=
  wh.any (fun h => decide (h.hour = peakHour.hour))

/-- `w.hours[0].hour < 12` — the Case C morning-window test. -/
def startsMorning (wh : List HourlyUV) : Bool := decide (headHourD wh < 12)

/-- The Case B trim of a run longer than four samples:
`peakIdx = findIndex(h => h.hour === peakHour.hour)` (JavaScript yields
`-1` when absent), `start = max(0, peakIdx - 2)`,
`end = min(length, start + 4)`, result `slice(start, end)`. -/
def trimToFour (peakHour : HourlyUV) (w : List HourlyUV) : List HourlyUV :=
  if w.length > 4 then
    let peakIdx : ℤ :=
      match w.findIdx? (fun h => decide (h.hour = peakHour.hour)) with
      | some i => (i : ℤ)
      | none => -1
    let s := max 0 (peakIdx - 2)
    let e := min (w.length : ℤ) (s + 4)
    (w.drop s.toNat).take (e - s).toNat
  else w

/-- `calculateOptimalTime` from `src/lib/utils/calculations.ts`, after
its initial daylight filter (everything past that filter only reads
`daylightHours`). -/
def calculateOptimalTimeDaylight (fallback : String → String)
    (daylightHours : List HourlyUV) : Option OptimalTimeRecommendation :=
  match daylightHours with
  | [] => none
  | d :: ds =>
    let peakHour := jsReduceMaxUV d ds
    let optimalHours := (d :: ds).filter isOptimalUV
    if optimalHours.length > 0 then
      -- `windows.reduce` on an empty array would throw in JavaScript; the
      -- guard above makes the windows nonempty, so the `none` arm of this
      -- match is unreachable.
      match findContiguousWindows optimalHours with
      | [] => none
      | w :: ws =>
        some (windowResult fallback (jsReduceLongest w ws) "optimalUV" true)
    else if (d :: ds).all isBelowOptimal then
      match sortByHour ((d :: ds).filter isMeaningfulUV) with
      | [] => some (windowResult fallback [peakHour] "veryLowUVToday" false)
      | m :: ms =>
        match findContiguousWindows (m :: ms) with
        | [] => none
        | w :: ws =>
          let windowWithPeak := ((w :: ws).find? (hasPeakHour peakHour)).getD w
          some (windowResult fallback (trimToFour peakHour windowWithPeak) "lowUVToday" false)
    else
      match (d :: ds).filter isSafeUV with
      | s :: ss =>
        match findContiguousWindows (s :: ss) with
        | [] => none
        | w :: ws =>
          some (windowResult fallback
            (((w :: ws).find? startsMorning).getD w) "highUVToday" true)
      | [] =>
        match (d :: ds).filter isEarlyHour with
        | [] => none
        | e :: es => some (windowResult fallback (e :: es) "extremeUVToday" false)

/-- `calculateOptimalTime` from `src/lib/utils/calculations.ts`. -/
def calculateOptimalTime (fallback : String → String) (hourlyUV : List HourlyUV) :
    Option OptimalTimeRecommendation :=
  calculateOptimalTimeDaylight fallback (hourlyUV.filter isDaylight)

/-- `getRecommendedExposureTime` from `src/lib/utils/calculations.ts`. -/
def getRecommendedExposureTime (uvIndex : ℚ) : ℕ :=
  if uvIndex ≤ 2 then 60
  else if uvIndex ≤ 5 then 30
  else if uvIndex ≤ 7 then 20
  else if uvIndex ≤ 10 then 15
  else 10

/-! ## Golden hour -/

/-- Attempt to read `\d\d:\d\d` at the current position (the part of the
pattern `/T(\d{2}):(\d{2})/` after the `T`); returns (hour, minute) as
`parseInt` values. -/
def timeDigitsAt : List Char → Option (ℕ × ℕ)
  | d1 :: d2 :: ':' :: d3 :: d4 :: _ =>
    if d1.isDigit ∧ d2.isDigit ∧ d3.isDigit ∧ d4.isDigit then
      some (10 * digitVal d1 + digitVal d2, 10 * digitVal d3 + digitVal d4)
    else none
  | _ => none

/-- First match of the unanchored regex `/T(\d{2}):(\d{2})/`: scan left to
right, succeed at the first position whose character is `T` followed by
`\d\d:\d\d`. -/
def firstTimeMatch : List Char → Option (ℕ × ℕ)
  | [] => none
  | c :: rest =>
    match (if c = 'T' then timeDigitsAt rest else none) with
    | some r => some r
    | none => firstTimeMatch rest

/-- `extractTime` inside `calculateGoldenHour`: hour and minute of the
first `T\d\d:\d\d` occurrence, `{hour: 0, minute: 0}` when absent. -/
def extractTime (isoString : String) : ℕ × ℕ :=
  (firstTimeMatch isoString.data).getD (0, 0)

/-- `formatTimeWithOffset` inside `calculateGoldenHour`: add the offset to
the hour, wrap once into `[0, 24)`, and render as `HH:MM`. -/
def formatTimeWithOffset (time : ℕ × ℕ) (offsetHours : ℤ) : String :=
  let hour0 : ℤ := (time.1 : ℤ) + offsetHours
  let hour1 : ℤ := if hour0 < 0 then hour0 + 24 else hour0
  let hour : ℤ := if hour1 ≥ 24 then hour1 - 24 else hour1
  padStart2 (toString hour) ++ ":" ++ padStart2 (toString time.2)

/-- The record returned by `calculateGoldenHour`. -/
structure GoldenHourBounds where
  morningStart : String
  morningEnd : String
  eveningStart : String
  eveningEnd : String
deriving Repr, DecidableEq, Inhabited

/-- `calculateGoldenHour` from `src/lib/utils/calculations.ts`.  The
`today` parameter models `new Date().toISOString().split("T")[0]`, the
current date the code falls back to when the sunrise string has no
nonempty date part before a `T`. -/
def calculateGoldenHour (today : String) (sunrise sunset : String) : GoldenHourBounds :=
  let sunriseTime := extractTime sunrise
  let sunsetTime := extractTime sunset
  let dateBase : String :=
    let d := sunrise.data.takeWhile (fun c => decide (c ≠ 'T'))
    if d.isEmpty then today else ⟨d⟩
  { morningStart := dateBase ++ "T" ++ formatTimeWithOffset sunriseTime 0
    morningEnd := dateBase ++ "T" ++ formatTimeWithOffset sunriseTime 1
    eveningStart := dateBase ++ "T" ++ formatTimeWithOffset sunsetTime (-1)
    eveningEnd := dateBase ++ "T" ++ formatTimeWithOffset sunsetTime 0 }

/-- `String(n).padStart(2, "0")` of a natural number. -/
def pad2 (n : ℕ) : String := padStart2 (toString n)

/-! ## Solar position (`src/unnamed/part_016`), modelled over `ℝ` -/

/-- A UTC instant as the code reads it through `getUTCFullYear`,
`getUTCMonth() + 1`, `getUTCDate`, `getUTCHours`, `getUTCMinutes` and
`getUTCSeconds`. -/
structure UTCDate where
  year : ℤ
  month : ℤ
  day : ℤ
  hour : ℤ
  minute : ℤ
  second : ℤ
deriving Repr, DecidableEq

/-- `date.getUTCHours() + date.getUTCMinutes() / 60 + date.getUTCSeconds() / 3600`. -/
def dateHours (d : UTCDate) : ℚ :=
  (d.hour : ℚ) + (d.minute : ℚ) / 60 + (d.second : ℚ) / 3600

/-- `getJulianDay` from `src/unnamed/part_016`. -/
def getJulianDay (date : UTCDate) : ℚ :=
  let y : ℤ := if date.month ≤ 2 then date.year - 1 else date.year
  let m : ℤ := if date.month ≤ 2 then date.month + 12 else date.month
  let A : ℤ := ⌊(y : ℚ) / 100⌋
  let B : ℚ := 2 - (A : ℚ) + ((⌊(A : ℚ) / 4⌋ : ℤ) : ℚ)
  ((⌊(365.25 : ℚ) * ((y : ℚ) + 4716)⌋ : ℤ) : ℚ)
    + ((⌊(30.6001 : ℚ) * ((m : ℚ) + 1)⌋ : ℤ) : ℚ)
    + (date.day : ℚ) + dateHours date / 24 + B - 1524.5

/-- Julian century `T = (JD - 2451545.0) / 36525`. -/
def julianCentury (date : UTCDate) : ℚ := (getJulianDay date - 2451545.0) / 36525

/-- JavaScript truncation toward zero (the integer part used by `%`). -/
def jsTrunc (q : ℚ) : ℤ := if q < 0 then ⌈q⌉ else ⌊q⌋

/-- The JavaScript remainder `a % b`, which keeps the sign of `a`. -/
def jsMod (a b : ℚ) : ℚ := a - b * (jsTrunc (a / b) : ℚ)

/-- Geometric mean longitude `L0`, `% 360` with a negative fix-up. -/
def meanLongitude (T : ℚ) : ℚ :=
  let L0 := jsMod (280.46646 + T * (36000.76983 + 0.0003032 * T)) 360
  if L0 < 0 then L0 + 360 else L0

/-- Geometric mean anomaly `M`, reduced `% 360` (no negative fix-up in the
source). -/
def meanAnomaly (T : ℚ) : ℚ :=
  jsMod (357.52911 + T * (35999.05029 - 0.0001537 * T)) 360

/-- Eccentricity `e` of Earth's orbit. -/
def eccentricityEarthOrbit (T : ℚ) : ℚ :=
  0.016708634 - T * (0.000042037 + 0.0000001267 * T)

/-- `omega = 125.04 - 1934.136 * T` (degrees). -/
def omegaDeg (T : ℚ) : ℚ := 125.04 - 1934.136 * T

/-- Mean obliquity `epsilon0` (degrees). -/
def epsilon0Deg (T : ℚ) : ℚ :=
  23 + (26 + (21.448 - T * (46.815 + T * (0.00059 - T * 0.001813))) / 60) / 60

/-- The sun's equation of center `C` (degrees). -/
noncomputable def equationOfCenter (T : ℚ) : ℝ :=
  let Mrad : ℝ := ((meanAnomaly T : ℝ) * Real.pi) / 180
  ((1.914602 : ℝ) - (T : ℝ) * (0.004817 + 0.000014 * (T : ℝ))) * Real.sin Mrad
    + ((0.019993 : ℝ) - 0.000101 * (T : ℝ)) * Real.sin (2 * Mrad)
    + 0.000289 * Real.sin (3 * Mrad)

/-- Apparent longitude `lambda = L0 + C - 0.00569 - 0.00478 sin(omega)` (degrees). -/
noncomputable def apparentLongitude (T : ℚ) : ℝ :=
  (meanLongitude T : ℝ) + equationOfCenter T - 0.00569
    - 0.00478 * Real.sin (((omegaDeg T : ℝ) * Real.pi) / 180)

/-- Corrected obliquity `epsilon = epsilon0 + 0.00256 cos(omega)` (degrees). -/
noncomputable def obliquity (T : ℚ) : ℝ :=
  (epsilon0Deg T : ℝ) + 0.00256 * Real.cos (((omegaDeg T : ℝ) * Real.pi) / 180)

/-- Declination `asin(sin(epsilonRad) * sin(lambdaRad))` (radians). -/
noncomputable def declination (T : ℚ) : ℝ :=
  Real.arcsin (Real.sin ((obliquity T * Real.pi) / 180)
    * Real.sin ((apparentLongitude T * Real.pi) / 180))

/-- Equation of time (minutes). -/
noncomputable def equationOfTime (T : ℚ) : ℝ :=
  let epsilonRad := (obliquity T * Real.pi) / 180
  let y := Real.tan (epsilonRad / 2) * Real.tan (epsilonRad / 2)
  let L0rad := ((meanLongitude T : ℝ) * Real.pi) / 180
  let Mrad := ((meanAnomaly T : ℝ) * Real.pi) / 180
  let e : ℝ := (eccentricityEarthOrbit T : ℝ)
  4 * (180 / Real.pi) *
    (y * Real.sin (2 * L0rad) - 2 * e * Real.sin Mrad
      + 4 * e * y * Real.sin Mrad * Real.cos (2 * L0rad)
      - 0.5 * y * y * Real.sin (4 * L0rad)
      - 1.25 * e * e * Real.sin (2 * Mrad))

/-- Solar time in minutes: `hours * 60 + eqTime + 4 * lon`. -/
noncomputable def solarTimeMinutes (date : UTCDate) (lon : ℝ) : ℝ :=
  (dateHours date : ℝ) * 60 + equationOfTime (julianCentury date) + 4 * lon

/-- Hour angle `H = solarTime / 4 - 180` (degrees, not renormalized). -/
noncomputable def hourAngleDeg (date : UTCDate) (lon : ℝ) : ℝ :=
  solarTimeMinutes date lon / 4 - 180

/-- `SunPosition` from `src/unnamed/part_016`. -/
structure SunPosition where
  azimuth : ℝ
  elevation : ℝ
  isAboveHorizon : Prop

open scoped Classical in
/-- `getSunPosition` from `src/unnamed/part_016`.  `Math.sin`/`Math.cos`/
`Math.asin`/`Math.acos` are modelled by the real functions; the right
ascension `RA` computed by the source does not feed the returned record
and is omitted. -/
noncomputable def getSunPosition (lat lon : ℝ) (date : UTCDate) : SunPosition :=
  let latRad := (lat * Real.pi) / 180
  let T := julianCentury date
  let declin := declination T
  let hourAngle := hourAngleDeg date lon
  let hourAngleRad := (hourAngle * Real.pi) / 180
  let cosZenith := Real.sin latRad * Real.sin declin
    + Real.cos latRad * Real.cos declin * Real.cos hourAngleRad
  let zenithRad := Real.arccos (max (-1) (min 1 cosZenith))
  let zenith := (zenithRad * 180) / Real.pi
  let elevation := 90 - zenith
  let cosAzimuth := (Real.sin declin - Real.sin latRad * cosZenith)
    / (Real.cos latRad * Real.sin zenithRad)
  let azimuth : ℝ :=
    if |Real.sin zenithRad| < 0.0001 then 0
    else if hourAngle > 0 then
      360 - (Real.arccos (max (-1) (min 1 cosAzimuth)) * 180) / Real.pi
    else (Real.arccos (max (-1) (min 1 cosAzimuth)) * 180) / Real.pi
  { azimuth := azimuth, elevation := elevation, isAboveHorizon := elevation > 0 }

/-! ## Spec-side vocabulary and concrete inputs used by the claims -/

/-- Two samples occupy consecutive hours of the day. -/
def consecHour (a b : HourlyUV) : Prop := b.hour = a.hour + 1

/-- Hour of the last sample of a nonempty window. -/
def lastHourD : List HourlyUV → ℤ
  | [] => 0
  | [x] => x.hour
  | _ :: x :: xs => lastHourD (x :: xs)

/-- The §8 example input: hourly UV `[1,2,4,5,6,4,2,1]` at hours `6..13`. -/
def exampleDayA : List HourlyUV :=
  [⟨"2024-06-01T06:00", 6, 1⟩, ⟨"2024-06-01T07:00", 7, 2⟩,
   ⟨"2024-06-01T08:00", 8, 4⟩, ⟨"2024-06-01T09:00", 9, 5⟩,
   ⟨"2024-06-01T10:00", 10, 6⟩, ⟨"2024-06-01T11:00", 11, 4⟩,
   ⟨"2024-06-01T12:00", 12, 2⟩, ⟨"2024-06-01T13:00", 13, 1⟩]

/-- A low-UV day: all daylight UV below 3, peak 2 at hour 13, meaningful
hours 9..16 (an eight-hour run that Case B must trim around the peak). -/
def exampleDayB : List HourlyUV :=
  [⟨"2024-06-01T09:00", 9, 1⟩, ⟨"2024-06-01T10:00", 10, 1⟩,
   ⟨"2024-06-01T11:00", 11, 1⟩, ⟨"2024-06-01T12:00", 12, 1⟩,
   ⟨"2024-06-01T13:00", 13, 2⟩, ⟨"2024-06-01T14:00", 14, 1⟩,
   ⟨"2024-06-01T15:00", 15, 1⟩, ⟨"2024-06-01T16:00", 16, 1⟩]

/-- A high-UV day: peak 8 at hour 13 (neither Case A nor Case B), safe
morning hours 8 and 9. -/
def exampleDayC : List HourlyUV :=
  [⟨"2024-06-01T08:00", 8, 2⟩, ⟨"2024-06-01T09:00", 9, 2⟩,
   ⟨"2024-06-01T13:00", 13, 8⟩]

/-- Head of `exampleDayB` (all its samples are daylight samples). -/
def exampleDayBHead : HourlyUV := ⟨"2024-06-01T09:00", 9, 1⟩

/-- Tail of `exampleDayB`. -/
def exampleDayBTail : List HourlyUV :=
  [⟨"2024-06-01T10:00", 10, 1⟩, ⟨"2024-06-01T11:00", 11, 1⟩,
   ⟨"2024-06-01T12:00", 12, 1⟩, ⟨"2024-06-01T13:00", 13, 2⟩,
   ⟨"2024-06-01T14:00", 14, 1⟩, ⟨"2024-06-01T15:00", 15, 1⟩,
   ⟨"2024-06-01T16:00", 16, 1⟩]

/-- Head of `exampleDayC`. -/
def exampleDayCHead : HourlyUV := ⟨"2024-06-01T08:00", 8, 2⟩

/-- Tail of `exampleDayC`. -/
def exampleDayCTail : List HourlyUV :=
  [⟨"2024-06-01T09:00", 9, 2⟩, ⟨"2024-06-01T13:00", 13, 8⟩]

/-- The date part used by the golden-hour witness. -/
def baseDateChars : List Char := "2024-06-01".data

/-- The concrete instant of the `claim_C3_counterexample` input:
2024-11-01 23:59:59 UTC. -/
def novDate : UTCDate := ⟨2024, 11, 1, 23, 59, 59⟩

/-- The longitude of the `claim_C3_counterexample` input, chosen so that
the hour angle at `novDate` is exactly 180 degrees; it lies well inside
`[-180, 180]`. -/
noncomputable def novLon : ℝ :=
  (1440 - (dateHours novDate : ℝ) * 60 - equationOfTime (julianCentury novDate)) / 4

/-- What claim C1 asserts about a Case A run of `calculateOptimalTime` on
input `l`: the optimal-UV daylight samples split into nonempty maximal
runs of consecutive hours; the selected window `w` is the first run of
maximal size; and the result is built from exactly `w` (start at its
first sample, end one hour past its last, UV range over its samples,
duration `w.length * 60`, reason tag `optimalUV`, good for vitamin D). -/
def caseAPostcondition (fallback : String → String) (l : List HourlyUV) : Prop :=
  ∃ w ws1 ws2,
    findContiguousWindows ((l.filter isDaylight).filter isOptimalUV) = ws1 ++ w :: ws2 ∧
    (ws1 ++ w :: ws2).flatten = sortByHour ((l.filter isDaylight).filter isOptimalUV) ∧
    (∀ x ∈ ws1 ++ w :: ws2, x ≠ [] ∧ List.Chain' consecHour x) ∧
    List.Chain' (fun w1 w2 => headHourD w2 ≠ lastHourD w1 + 1) (ws1 ++ w :: ws2) ∧
    (∀ x ∈ ws1, x.length < w.length) ∧
    (∀ x ∈ ws1 ++ w :: ws2, x.length ≤ w.length) ∧
    calculateOptimalTime fallback l = some (windowResult fallback w "optimalUV" true)

/-- What claim C4 asserts about a Case B run on input `l` with peak-UV
sample `peak`: among the contiguous runs of meaningful (UV ≥ 1) daylight
hours, the selected run `w` is the first one containing the peak hour;
the reported window is `w` trimmed by the peak-centered clamped
four-hour cut (a contiguous sub-window of `w`, at most four samples,
still containing the peak hour, and untouched when `w` has at most four
samples); the result carries reason tag `lowUVToday` and is not good for
vitamin D, with duration `60` minutes per selected sample. -/
def caseBPostcondition (fallback : String → String) (l : List HourlyUV)
    (peak : HourlyUV) : Prop :=
  ∃ w ws1 ws2,
    findContiguousWindows (sortByHour ((l.filter isDaylight).filter isMeaningfulUV)) =
      ws1 ++ w :: ws2 ∧
    (∀ x ∈ ws1, ∀ h2 ∈ x, h2.hour ≠ peak.hour) ∧
    (∃ h2 ∈ w, h2.hour = peak.hour) ∧
    (w.length ≤ 4 → trimToFour peak w = w) ∧
    (trimToFour peak w).length ≤ 4 ∧
    (∃ pre post, w = pre ++ trimToFour peak w ++ post) ∧
    (∃ h2 ∈ trimToFour peak w, h2.hour = peak.hour) ∧
    calculateOptimalTime fallback l =
      some (windowResult fallback (trimToFour peak w) "lowUVToday" false)

/-- What claim C6 asserts about a Case C run on input `l`: among the
contiguous runs of safe (UV in [2,7]) daylight hours, the selected run
`w` is the first one starting before 12:00 local, or the very first run
when no run starts in the morning; the result is built from exactly `w`
with reason tag `highUVToday`, good for vitamin D. -/
def caseCPostcondition (fallback : String → String) (l : List HourlyUV) : Prop :=
  ∃ w ws1 ws2,
    findContiguousWindows ((l.filter isDaylight).filter isSafeUV) = ws1 ++ w :: ws2 ∧
    ((headHourD w < 12 ∧ ∀ x ∈ ws1, ¬(headHourD x < 12)) ∨
      (ws1 = [] ∧ ∀ x ∈ ws1 ++ w :: ws2, ¬(headHourD x < 12))) ∧
    calculateOptimalTime fallback l = some (windowResult fallback w "highUVToday" true)

/-! ## General lemmas about the JavaScript `reduce`, `find` and `findIndex` idioms -/

section Fold

variable {α β : Type} [LinearOrder β]

/-- `l.reduce((p, c) => f(c) > f(p) ? c : p, a)` returns the first
element of `a :: l` attaining the maximum of `f`: the input splits into a
strict-prefix on which `f` stays strictly below, the result, and a suffix
on which `f` never exceeds it. -/
theorem foldl_pickMax_spec (f : α → β) (l : List α) : ∀ a : α,
    ∃ l1 l2,
      a :: l = l1 ++ l.foldl (fun p c => if f c > f p then c else p) a :: l2 ∧
      f a ≤ f (l.foldl (fun p c => if f c > f p then c else p) a) ∧
      (∀ x ∈ l1, f x < f (l.foldl (fun p c => if f c > f p then c else p) a)) ∧
      (∀ x ∈ l2, f x ≤ f (l.foldl (fun p c => if f c > f p then c else p) a)) := by
  induction l with
  | nil => exact fun a => ⟨[], [], rfl, le_rfl, by simp, by simp⟩
  | cons c cs ih =>
    intro a
    rw [List.foldl_cons]
    by_cases hc : f c > f a
    · rw [if_pos hc]
      obtain ⟨l1, l2, hdec, hbase, hl1, hl2⟩ := ih c
      refine ⟨a :: l1, l2, by rw [List.cons_append, ← hdec], le_trans (le_of_lt hc) hbase, ?_, hl2⟩
      intro x hx
      rcases List.mem_cons.1 hx with rfl | hx
      · exact lt_of_lt_of_le hc hbase
      · exact hl1 x hx
    · rw [if_neg hc]
      push_neg at hc
      obtain ⟨l1, l2, hdec, hbase, hl1, hl2⟩ := ih a
      cases l1 with
      | nil =>
        simp only [List.nil_append] at hdec
        injection hdec with h1 h2
        refine ⟨[], c :: cs, by rw [List.nil_append, ← h1], le_of_eq (congrArg f h1), by simp, ?_⟩
        intro x hx
        rcases List.mem_cons.1 hx with rfl | hx
        · rw [← h1]; exact hc
        · rw [h2] at hx; exact hl2 x hx
      | cons b l1x =>
        injection hdec with h1 h2
        subst h1
        rw [List.append_eq] at h2
        refine ⟨a :: c :: l1x, l2, by rw [List.cons_append, List.cons_append, ← h2], ?_, ?_, hl2⟩
        · exact le_of_lt (hl1 a (List.mem_cons_self _ _))
        · intro x hx
          rcases List.mem_cons.1 hx with rfl | hx
          · exact hl1 x (List.mem_cons_self _ _)
          rcases List.mem_cons.1 hx with rfl | hx
          · exact lt_of_le_of_lt hc (hl1 a (List.mem_cons_self _ _))
          · exact hl1 x (List.mem_cons_of_mem _ hx)

/-- The picked maximum is an element of `a :: l`. -/
theorem foldl_pickMax_mem (f : α → β) (l : List α) (a : α) :
    l.foldl (fun p c => if f c > f p then c else p) a ∈ a :: l := by
  obtain ⟨l1, l2, hdec, -, -, -⟩ := foldl_pickMax_spec f l a
  rw [hdec]
  exact List.mem_append.2 (Or.inr (List.mem_cons_self _ _))

/-- No element of `a :: l` exceeds the picked maximum. -/
theorem foldl_pickMax_le (f : α → β) (l : List α) (a : α) :
    ∀ x ∈ a :: l, f x ≤ f (l.foldl (fun p c => if f c > f p then c else p) a) := by
  obtain ⟨l1, l2, hdec, -, hl1, hl2⟩ := foldl_pickMax_spec f l a
  intro x hx
  rw [hdec] at hx
  rcases List.mem_append.1 hx with hx | hx
  · exact le_of_lt (hl1 x hx)
  rcases List.mem_cons.1 hx with rfl | hx
  · exact le_rfl
  · exact hl2 x hx

/-- `l.find(p)` either fails everywhere or returns the head of the
all-failing prefix decomposition. -/
theorem find?_decomp (p : α → Bool) (l : List α) :
    (l.find? p = none ∧ ∀ x ∈ l, p x = false) ∨
    (∃ l1 a l2, l = l1 ++ a :: l2 ∧ (∀ x ∈ l1, p x = false) ∧ p a = true ∧
      l.find? p = some a) := by
  induction l with
  | nil => left; simp
  | cons c cs ih =>
    by_cases hp : p c = true
    · right
      exact ⟨[], c, cs, rfl, by simp, hp, List.find?_cons_of_pos cs hp⟩
    · have hfind : (c :: cs).find? p = cs.find? p := List.find?_cons_of_neg cs hp
      rcases ih with ⟨h1, h2⟩ | ⟨l1, a, l2, hdec, hl1, hpa, hfd⟩
      · left
        refine ⟨hfind.trans h1, ?_⟩
        intro x hx
        rcases List.mem_cons.1 hx with rfl | hx
        · exact Bool.eq_false_iff.2 hp
        · exact h2 x hx
      · right
        refine ⟨c :: l1, a, l2, by rw [hdec, List.cons_append], ?_, hpa, hfind.trans hfd⟩
        intro x hx
        rcases List.mem_cons.1 hx with rfl | hx
        · exact Bool.eq_false_iff.2 hp
        · exact hl1 x hx

/-- If some element satisfies `p`, `findIndex` returns an in-range index
whose element satisfies `p`. -/
theorem findIdx?_spec (p : α → Bool) :
    ∀ (l : List α) (s : ℕ), (∃ x ∈ l, p x = true) →
      ∃ j a, List.findIdx? p l s = some (s + j) ∧ j < l.length ∧ l[j]? = some a ∧
        p a = true := by
  intro l
  induction l with
  | nil => simp
  | cons c cs ih =>
    intro s hex
    by_cases hp : p c = true
    · exact ⟨0, c, by simp [List.findIdx?_cons, hp], by simp, by simp, hp⟩
    · obtain ⟨x, hx, hpx⟩ := hex
      rcases List.mem_cons.1 hx with rfl | hx
      · exact absurd hpx hp
      obtain ⟨j, a, hfind, hlt, hget, hpa⟩ := ih (s + 1) ⟨x, hx, hpx⟩
      refine ⟨j + 1, a, ?_, by simpa using hlt, by simpa using hget, hpa⟩
      rw [List.findIdx?_cons, if_neg hp, hfind]
      congr 1
      omega

end Fold

/-! ## Structure of `findContiguousWindows` -/

/-- The windows list produced by the loop is never empty. -/
theorem findContiguousWindowsAux_ne_nil :
    ∀ (rest : List HourlyUV) (prev : HourlyUV) (cur : List HourlyUV),
      findContiguousWindowsAux prev cur rest ≠ [] := by
  intro rest
  induction rest with
  | nil => intro prev cur; simp [findContiguousWindowsAux]
  | cons x xs ih =>
    intro prev cur
    simp only [findContiguousWindowsAux]
    split
    · exact ih x (x :: cur)
    · exact List.cons_ne_nil _ _

/-- Every window produced from a nonempty accumulator is nonempty. -/
theorem findContiguousWindowsAux_mem_ne_nil :
    ∀ (rest : List HourlyUV) (prev : HourlyUV) (cur : List HourlyUV), cur ≠ [] →
      ∀ w ∈ findContiguousWindowsAux prev cur rest, w ≠ [] := by
  intro rest
  induction rest with
  | nil =>
    intro prev cur hcur w hw
    simp only [findContiguousWindowsAux, List.mem_singleton] at hw
    subst hw
    simpa [List.reverse_eq_nil_iff] using hcur
  | cons x xs ih =>
    intro prev cur hcur w hw
    simp only [findContiguousWindowsAux] at hw
    split at hw
    · exact ih x (x :: cur) (List.cons_ne_nil _ _) w hw
    · rcases List.mem_cons.1 hw with rfl | hw
      · simpa [List.reverse_eq_nil_iff] using hcur
      · exact ih x [x] (List.cons_ne_nil _ _) w hw

/-- Flattening the windows recovers the accumulator (reversed) followed by
the unprocessed rest: the loop partitions its input. -/
theorem findContiguousWindowsAux_flatten :
    ∀ (rest : List HourlyUV) (prev : HourlyUV) (cur : List HourlyUV),
      (findContiguousWindowsAux prev cur rest).flatten = cur.reverse ++ rest := by
  intro rest
  induction rest with
  | nil => intro prev cur; simp [findContiguousWindowsAux]
  | cons x xs ih =>
    intro prev cur
    simp only [findContiguousWindowsAux]
    split
    · rw [ih x (x :: cur)]
      simp
    · rw [List.flatten_cons, ih x [x]]
      simp

/-- Every produced window lists consecutive hours (`hour[i] = hour[i-1]+1`). -/
theorem findContiguousWindowsAux_chain :
    ∀ (rest : List HourlyUV) (prev : HourlyUV) (cur : List HourlyUV),
      cur.head? = some prev →
      List.Chain' (fun a b : HourlyUV => a.hour = b.hour + 1) cur →
      ∀ w ∈ findContiguousWindowsAux prev cur rest, List.Chain' consecHour w := by
  intro rest
  induction rest with
  | nil =>
    intro prev cur hhead hchain w hw
    simp only [findContiguousWindowsAux, List.mem_singleton] at hw
    subst hw
    rw [List.chain'_reverse]
    exact hchain
  | cons x xs ih =>
    intro prev cur hhead hchain w hw
    simp only [findContiguousWindowsAux] at hw
    split at hw
    · refine ih x (x :: cur) (List.head?_cons) (List.chain'_cons'.2 ⟨?_, hchain⟩) w hw
      intro y hy
      rw [hhead, Option.mem_some_iff] at hy
      subst hy
      assumption
    · rcases List.mem_cons.1 hw with rfl | hw
      · rw [List.chain'_reverse]
        exact hchain
      · exact ih x [x] List.head?_cons (List.chain'_singleton x) w hw

/-- The first produced window extends the reversed accumulator. -/
theorem findContiguousWindowsAux_head :
    ∀ (rest : List HourlyUV) (prev : HourlyUV) (cur : List HourlyUV),
      ∃ ext tl, findContiguousWindowsAux prev cur rest = (cur.reverse ++ ext) :: tl := by
  intro rest
  induction rest with
  | nil => intro prev cur; exact ⟨[], [], by simp [findContiguousWindowsAux]⟩
  | cons x xs ih =>
    intro prev cur
    simp only [findContiguousWindowsAux]
    split
    · obtain ⟨ext, tl, heq⟩ := ih x (x :: cur)
      refine ⟨x :: ext, tl, ?_⟩
      rw [heq]
      simp
    · exact ⟨[], findContiguousWindowsAux x [x] xs, by rw [List.append_nil]⟩

/-- Hour of the last element of `l ++ [a]` is `a.hour`. -/
theorem lastHourD_append_single :
    ∀ (l : List HourlyUV) (a : HourlyUV), lastHourD (l ++ [a]) = a.hour := by
  intro l
  induction l with
  | nil => intro a; rfl
  | cons x xs ih =>
    intro a
    cases xs with
    | nil => rfl
    | cons y ys => exact ih a

/-- Adjacent windows are separated: the next window does not start at the
hour following the previous window's last hour (the runs are maximal). -/
theorem findContiguousWindowsAux_sep :
    ∀ (rest : List HourlyUV) (prev : HourlyUV) (cur : List HourlyUV),
      cur.head? = some prev →
      List.Chain' (fun w1 w2 => headHourD w2 ≠ lastHourD w1 + 1)
        (findContiguousWindowsAux prev cur rest) := by
  intro rest
  induction rest with
  | nil => intro prev cur hhead; exact List.chain'_singleton _
  | cons x xs ih =>
    intro prev cur hhead
    simp only [findContiguousWindowsAux]
    split
    · exact ih x (x :: cur) List.head?_cons
    · rename_i hne
      refine List.chain'_cons'.2 ⟨?_, ih x [x] List.head?_cons⟩
      intro w2 hw2
      obtain ⟨ext, tl, heq⟩ := findContiguousWindowsAux_head xs x [x]
      rw [heq, List.head?_cons, Option.mem_some_iff] at hw2
      subst hw2
      cases cur with
      | nil => simp at hhead
      | cons c cs =>
        rw [List.head?_cons, Option.some_inj] at hhead
        subst hhead
        have hl : lastHourD (c :: cs).reverse = c.hour := by
          rw [List.reverse_cons, lastHourD_append_single]
        rw [hl]
        simpa [headHourD] using hne

/-- `sortByHour` permutes its input. -/
theorem sortByHour_perm (hours : List HourlyUV) : (sortByHour hours).Perm hours :=
  List.perm_insertionSort _ hours

/-- An empty sort comes only from an empty input. -/
theorem sortByHour_eq_nil {hours : List HourlyUV} (h : sortByHour hours = []) :
    hours = [] := by
  have hp := sortByHour_perm hours
  rw [h] at hp
  exact hp.symm.eq_nil

/-- Sorting preserves membership. -/
theorem mem_sortByHour {x : HourlyUV} {hours : List HourlyUV} :
    x ∈ sortByHour hours ↔ x ∈ hours :=
  (sortByHour_perm hours).mem_iff

/-- `findContiguousWindows` partitions the sorted input into nonempty
maximal runs of consecutive hours: flattening the windows gives back the
sorted samples, every window is a nonempty chain of consecutive hours,
and no window continues at the hour right after its predecessor's last
hour. -/
theorem findContiguousWindows_spec (hours : List HourlyUV) :
    (findContiguousWindows hours).flatten = sortByHour hours ∧
    (∀ w ∈ findContiguousWindows hours, w ≠ [] ∧ List.Chain' consecHour w) ∧
    List.Chain' (fun w1 w2 => headHourD w2 ≠ lastHourD w1 + 1)
      (findContiguousWindows hours) := by
  unfold findContiguousWindows
  cases h : sortByHour hours with
  | nil => simp
  | cons x xs =>
    refine ⟨?_, ?_, ?_⟩
    · rw [findContiguousWindowsAux_flatten]
      simp
    · intro w hw
      exact ⟨findContiguousWindowsAux_mem_ne_nil xs x [x] (List.cons_ne_nil _ _) w hw,
        findContiguousWindowsAux_chain xs x [x] List.head?_cons (List.chain'_singleton x) w hw⟩
    · exact findContiguousWindowsAux_sep xs x [x] List.head?_cons

/-- A nonempty input yields a nonempty windows list. -/
theorem findContiguousWindows_ne_nil {hours : List HourlyUV} (h : hours ≠ []) :
    findContiguousWindows hours ≠ [] := by
  unfold findContiguousWindows
  cases hs : sortByHour hours with
  | nil => exact absurd (sortByHour_eq_nil hs) h
  | cons x xs => exact findContiguousWindowsAux_ne_nil xs x [x]

/-- Every input sample lands in one of the windows. -/
theorem exists_window_mem {x : HourlyUV} {hours : List HourlyUV} (hx : x ∈ hours) :
    ∃ w ∈ findContiguousWindows hours, x ∈ w := by
  have hj := (findContiguousWindows_spec hours).1
  have hmem : x ∈ (findContiguousWindows hours).flatten := by
    rw [hj, mem_sortByHour]
    exact hx
  exact List.mem_flatten.1 hmem

/-! ## The filter predicates, unfolded -/

theorem isDaylight_iff {h : HourlyUV} : isDaylight h = true ↔ 6 ≤ h.hour ∧ h.hour ≤ 20 := by
  simp [isDaylight]

theorem isOptimalUV_iff {h : HourlyUV} : isOptimalUV h = true ↔ 3 ≤ h.uv ∧ h.uv ≤ 7 := by
  simp [isOptimalUV, OPTIMAL_UV_RANGE_min, OPTIMAL_UV_RANGE_max]

theorem isBelowOptimal_iff {h : HourlyUV} : isBelowOptimal h = true ↔ h.uv < 3 := by
  simp [isBelowOptimal, OPTIMAL_UV_RANGE_min]

theorem isMeaningfulUV_iff {h : HourlyUV} : isMeaningfulUV h = true ↔ 1 ≤ h.uv := by
  simp [isMeaningfulUV]

theorem isSafeUV_iff {h : HourlyUV} : isSafeUV h = true ↔ 2 ≤ h.uv ∧ h.uv ≤ 7 := by
  simp [isSafeUV, OPTIMAL_UV_RANGE_max]

theorem isEarlyHour_iff {h : HourlyUV} : isEarlyHour h = true ↔ 7 ≤ h.hour ∧ h.hour ≤ 9 := by
  simp [isEarlyHour]

theorem hasPeakHour_iff {p : HourlyUV} {wh : List HourlyUV} :
    hasPeakHour p wh = true ↔ ∃ h ∈ wh, h.hour = p.hour := by
  simp [hasPeakHour, List.any_eq_true]

theorem startsMorning_iff {wh : List HourlyUV} :
    startsMorning wh = true ↔ headHourD wh < 12 := by
  simp [startsMorning]

/-! ## The four branches of `calculateOptimalTime` -/

/-- Case A: some daylight sample has UV in the optimal band. -/
theorem calcDaylight_caseA (fallback : String → String) (d : HourlyUV) (ds : List HourlyUV)
    (h : (d :: ds).filter isOptimalUV ≠ []) :
    ∃ w ws, findContiguousWindows ((d :: ds).filter isOptimalUV) = w :: ws ∧
      calculateOptimalTimeDaylight fallback (d :: ds) =
        some (windowResult fallback (jsReduceLongest w ws) "optimalUV" true) := by
  obtain ⟨w, ws, hcw⟩ := List.exists_cons_of_ne_nil (findContiguousWindows_ne_nil h)
  refine ⟨w, ws, hcw, ?_⟩
  have hpos : (List.filter isOptimalUV (d :: ds)).length > 0 :=
    List.length_pos.2 h
  simp only [calculateOptimalTimeDaylight]
  rw [if_pos hpos, hcw]

/-- Case B with no meaningful hour: the single-hour window at the peak. -/
theorem calcDaylight_caseB0 (fallback : String → String) (d : HourlyUV) (ds : List HourlyUV)
    (hA : (d :: ds).filter isOptimalUV = [])
    (hlow : (d :: ds).all isBelowOptimal = true)
    (hm : (d :: ds).filter isMeaningfulUV = []) :
    calculateOptimalTimeDaylight fallback (d :: ds) =
      some (windowResult fallback [jsReduceMaxUV d ds] "veryLowUVToday" false) := by
  simp only [calculateOptimalTimeDaylight]
  rw [hA]
  have hsnil : sortByHour ((d :: ds).filter isMeaningfulUV) = [] := by
    rw [hm]
    rfl
  simp only [List.length_nil, gt_iff_lt, lt_self_iff_false, if_false, if_pos hlow, hsnil]

/-- Case B proper: all daylight UV below 3 and a meaningful hour exists. -/
theorem calcDaylight_caseB (fallback : String → String) (d : HourlyUV) (ds : List HourlyUV)
    (hA : (d :: ds).filter isOptimalUV = [])
    (hlow : (d :: ds).all isBelowOptimal = true)
    (hm : (d :: ds).filter isMeaningfulUV ≠ []) :
    ∃ w ws, findContiguousWindows (sortByHour ((d :: ds).filter isMeaningfulUV)) = w :: ws ∧
      calculateOptimalTimeDaylight fallback (d :: ds) =
        some (windowResult fallback
          (trimToFour (jsReduceMaxUV d ds)
            (((w :: ws).find? (hasPeakHour (jsReduceMaxUV d ds))).getD w))
          "lowUVToday" false) := by
  have hsort : sortByHour ((d :: ds).filter isMeaningfulUV) ≠ [] :=
    fun hc => hm (sortByHour_eq_nil hc)
  obtain ⟨m, ms, hs⟩ := List.exists_cons_of_ne_nil hsort
  have hwne : findContiguousWindows (m :: ms) ≠ [] :=
    findContiguousWindows_ne_nil (List.cons_ne_nil _ _)
  obtain ⟨w, ws, hcw⟩ := List.exists_cons_of_ne_nil hwne
  refine ⟨w, ws, by rw [hs, hcw], ?_⟩
  simp only [calculateOptimalTimeDaylight]
  rw [hA]
  simp only [List.length_nil, gt_iff_lt, lt_self_iff_false, if_false, if_pos hlow, hs, hcw]

/-- Case C: neither A nor B, and a safe hour exists. -/
theorem calcDaylight_caseC (fallback : String → String) (d : HourlyUV) (ds : List HourlyUV)
    (hA : (d :: ds).filter isOptimalUV = [])
    (hlow : (d :: ds).all isBelowOptimal = false)
    (hs : (d :: ds).filter isSafeUV ≠ []) :
    ∃ w ws, findContiguousWindows ((d :: ds).filter isSafeUV) = w :: ws ∧
      calculateOptimalTimeDaylight fallback (d :: ds) =
        some (windowResult fallback (((w :: ws).find? startsMorning).getD w)
          "highUVToday" true) := by
  obtain ⟨s, ss, hfs⟩ := List.exists_cons_of_ne_nil hs
  have hwne : findContiguousWindows (s :: ss) ≠ [] :=
    findContiguousWindows_ne_nil (List.cons_ne_nil _ _)
  obtain ⟨w, ws, hcw⟩ := List.exists_cons_of_ne_nil hwne
  refine ⟨w, ws, by rw [hfs, hcw], ?_⟩
  simp only [calculateOptimalTimeDaylight]
  rw [hA]
  simp only [List.length_nil, gt_iff_lt, lt_self_iff_false, if_false,
    if_neg (by simp [hlow] : ¬(d :: ds).all isBelowOptimal = true), hfs, hcw]

/-- Case D: neither A, B nor C; the result is the early-morning window or
`none`. -/
theorem calcDaylight_caseD (fallback : String → String) (d : HourlyUV) (ds : List HourlyUV)
    (hA : (d :: ds).filter isOptimalUV = [])
    (hlow : (d :: ds).all isBelowOptimal = false)
    (hs : (d :: ds).filter isSafeUV = []) :
    calculateOptimalTimeDaylight fallback (d :: ds) =
      (match (d :: ds).filter isEarlyHour with
        | [] => none
        | e :: es => some (windowResult fallback (e :: es) "extremeUVToday" false)) := by
  simp only [calculateOptimalTimeDaylight]
  rw [hA]
  simp only [List.length_nil, gt_iff_lt, lt_self_iff_false, if_false,
    if_neg (by simp [hlow] : ¬(d :: ds).all isBelowOptimal = true), hs]

/-! ## The peak sample and the Case B trim -/

/-- The reduced peak sample is one of the inputs. -/
theorem jsReduceMaxUV_mem (d : HourlyUV) (ds : List HourlyUV) :
    jsReduceMaxUV d ds ∈ d :: ds :=
  foldl_pickMax_mem (fun h : HourlyUV => h.uv) ds d

/-- No input sample has higher UV than the reduced peak sample. -/
theorem jsReduceMaxUV_le (d : HourlyUV) (ds : List HourlyUV) :
    ∀ x ∈ d :: ds, x.uv ≤ (jsReduceMaxUV d ds).uv :=
  foldl_pickMax_le (fun h : HourlyUV => h.uv) ds d

/-- The Case B trim: at most four samples survive, they form a contiguous
sub-window of the run, the peak hour stays inside, and runs of at most
four samples are untouched. -/
theorem trimToFour_spec (peak : HourlyUV) (w : List HourlyUV)
    (hpk : ∃ h ∈ w, h.hour = peak.hour) :
    (trimToFour peak w).length ≤ 4 ∧
    (∃ pre post, w = pre ++ trimToFour peak w ++ post) ∧
    (∃ h2 ∈ trimToFour peak w, h2.hour = peak.hour) ∧
    (w.length ≤ 4 → trimToFour peak w = w) := by
  by_cases hlen : w.length > 4
  · have hex : ∃ x ∈ w, (fun h => decide (h.hour = peak.hour)) x = true := by
      obtain ⟨h2, hh, he⟩ := hpk
      exact ⟨h2, hh, by simp [he]⟩
    obtain ⟨j, a, hfind, hjlt, hget, hpa⟩ := findIdx?_spec _ w 0 hex
    rw [zero_add] at hfind
    have htrim : trimToFour peak w =
        (w.drop (max 0 ((j : ℤ) - 2)).toNat).take
          ((min (w.length : ℤ) (max 0 ((j : ℤ) - 2) + 4)) - max 0 ((j : ℤ) - 2)).toNat := by
      unfold trimToFour
      rw [if_pos hlen, hfind]
    set s : ℤ := max 0 ((j : ℤ) - 2) with hs
    set e : ℤ := min (w.length : ℤ) (s + 4) with he
    have hjw : (j : ℤ) < (w.length : ℤ) := by exact_mod_cast hjlt
    have hs0 : 0 ≤ s := le_max_left _ _
    have hsj : s ≤ (j : ℤ) := by omega
    have hje : (j : ℤ) < e := by omega
    have hse : s ≤ e := by omega
    have hes : e - s ≤ 4 := by omega
    refine ⟨?_, ?_, ?_, ?_⟩
    · rw [htrim, List.length_take]
      have hb : ((e - s).toNat : ℤ) ≤ 4 := by omega
      calc ((e - s).toNat ⊓ (w.drop s.toNat).length) ≤ (e - s).toNat := min_le_left _ _
        _ ≤ 4 := by omega
    · refine ⟨w.take s.toNat, (w.drop s.toNat).drop ((e - s).toNat), ?_⟩
      rw [htrim]
      conv_lhs => rw [← List.take_append_drop s.toNat w]
      rw [List.append_assoc]
      congr 1
      exact (List.take_append_drop _ _).symm
    · have hmid : (trimToFour peak w)[(j - s.toNat : ℕ)]? = some a := by
        rw [htrim, List.getElem?_take, if_pos (by omega), List.getElem?_drop]
        rw [show s.toNat + (j - s.toNat) = j by omega]
        exact hget
      obtain ⟨hlt2, heq2⟩ := List.getElem?_eq_some.1 hmid
      refine ⟨a, ?_, of_decide_eq_true hpa⟩
      rw [← heq2]
      exact List.getElem_mem hlt2
    · intro hc
      exact absurd hlen (by omega)
  · have htr : trimToFour peak w = w := by
      unfold trimToFour
      rw [if_neg hlen]
    exact ⟨by rw [htr]; omega, ⟨[], [], by simp [htr]⟩, by rw [htr]; exact hpk,
      fun _ => htr⟩

/-! ## Claims about the risk classifier -/

/-- **C2**: `getUVRiskLevel` maps every UV index through a single
half-open convention: `uv < 3` is low, `3 ≤ uv < 6` moderate,
`6 ≤ uv < 8` high, `8 ≤ uv < 11` very-high and `11 ≤ uv` extreme; no
boundary mixes inclusive and exclusive comparisons. -/
theorem claim_C2 (uvIndex : ℚ) :
    (getUVRiskLevel uvIndex = .low ↔ uvIndex < 3) ∧
    (getUVRiskLevel uvIndex = .moderate ↔ 3 ≤ uvIndex ∧ uvIndex < 6) ∧
    (getUVRiskLevel uvIndex = .high ↔ 6 ≤ uvIndex ∧ uvIndex < 8) ∧
    (getUVRiskLevel uvIndex = .veryHigh ↔ 8 ≤ uvIndex ∧ uvIndex < 11) ∧
    (getUVRiskLevel uvIndex = .extreme ↔ 11 ≤ uvIndex) := by
  unfold getUVRiskLevel UV_THRESHOLDS_LOW_max UV_THRESHOLDS_MODERATE_max
    UV_THRESHOLDS_HIGH_max UV_THRESHOLDS_VERY_HIGH_max
  split_ifs with h1 h2 h3 h4 <;>
    refine ⟨?_, ?_, ?_, ?_, ?_⟩ <;>
    constructor <;>
    intro hx <;>
    first
      | rfl
      | exact absurd hx (by decide)
      | linarith
      | exact ⟨by linarith, by linarith⟩

/-- **C8**: `getUVRiskLevel` is monotone with respect to the total order
low < moderate < high < very-high < extreme (encoded by `rank`). -/
theorem claim_C8 (uv1 uv2 : ℚ) (h : uv1 < uv2) :
    (getUVRiskLevel uv1).rank ≤ (getUVRiskLevel uv2).rank := by
  unfold getUVRiskLevel UV_THRESHOLDS_LOW_max UV_THRESHOLDS_MODERATE_max
    UV_THRESHOLDS_HIGH_max UV_THRESHOLDS_VERY_HIGH_max
  split_ifs <;>
    simp only [UVRiskLevel.rank] <;>
    first
      | omega
      | (exfalso; linarith)

/-- Witness for C8 at the concrete pair `1 < 5`. -/
theorem claim_C8_witness :
    (1 : ℚ) < 5 ∧ (getUVRiskLevel 1).rank ≤ (getUVRiskLevel 5).rank :=
  ⟨by norm_num, claim_C8 1 5 (by norm_num)⟩

/-- **C9**: `calculateOptimalTime` performs the hour 6–20 restriction
itself, so its result only depends on the daylight samples: filtering the
input to hours 6–20 beforehand changes nothing. -/
theorem claim_C9 (fallback : String → String) (hourlyUV : List HourlyUV) :
    calculateOptimalTime fallback hourlyUV =
      calculateOptimalTime fallback (hourlyUV.filter isDaylight) := by
  unfold calculateOptimalTime
  congr 1
  rw [List.filter_filter]
  simp

/-- **C1**: whenever some daylight sample has UV in [3,7], Case A applies:
the optimal-UV samples are partitioned into maximal runs of consecutive
hours, the first run of maximal size is selected, and the result reports
exactly that run (`optimalUV`, good for vitamin D, duration 60 minutes
per sample, end time one hour past the last sample).  On the §8 example
(UV `[1,2,4,5,6,4,2,1]` at hours 6..13) the window is hours 8–11 with
start 08:00, end 12:00 and UV range {4,6}. -/
theorem claim_C1 (fallback : String → String) (l : List HourlyUV)
    (hA : ∃ h ∈ l, (6 ≤ h.hour ∧ h.hour ≤ 20) ∧ 3 ≤ h.uv ∧ h.uv ≤ 7) :
    caseAPostcondition fallback l ∧
    calculateOptimalTime fallback exampleDayA =
      some { startTime := "2024-06-01T08:00", endTime := "2024-06-01T12:00",
             uvMin := 4, uvMax := 6, reasonKey := "optimalUV", duration := 240,
             isGoodForVitaminD := true } := by
  constructor
  · obtain ⟨h0, hl0, hday0, huv0⟩ := hA
    have hmem : h0 ∈ l.filter isDaylight :=
      List.mem_filter.2 ⟨hl0, isDaylight_iff.2 hday0⟩
    unfold caseAPostcondition
    cases hD : l.filter isDaylight with
    | nil => rw [hD] at hmem; simp at hmem
    | cons d ds =>
      rw [hD] at hmem
      have hopt : (d :: ds).filter isOptimalUV ≠ [] :=
        List.ne_nil_of_mem (List.mem_filter.2 ⟨hmem, isOptimalUV_iff.2 huv0⟩)
      obtain ⟨w0, ws0, hcw, hres⟩ := calcDaylight_caseA fallback d ds hopt
      obtain ⟨l1, l2, hdec, hbase, hl1, hl2⟩ :=
        foldl_pickMax_spec (fun x : List HourlyUV => x.length) ws0 w0
      have hdec2 : w0 :: ws0 = l1 ++ jsReduceLongest w0 ws0 :: l2 := hdec
      have hbase2 : w0.length ≤ (jsReduceLongest w0 ws0).length := hbase
      have hl1b : ∀ x ∈ l1, x.length < (jsReduceLongest w0 ws0).length := hl1
      have hl2b : ∀ x ∈ l2, x.length ≤ (jsReduceLongest w0 ws0).length := hl2
      have hspec := findContiguousWindows_spec ((d :: ds).filter isOptimalUV)
      refine ⟨jsReduceLongest w0 ws0, l1, l2, ?_, ?_, ?_, ?_, hl1b, ?_, ?_⟩
      · rw [hcw]; exact hdec2
      · rw [← hdec2, ← hcw]; exact hspec.1
      · intro x hx
        rw [← hdec2, ← hcw] at hx
        exact hspec.2.1 x hx
      · rw [← hdec2, ← hcw]; exact hspec.2.2
      · intro x hx
        rcases List.mem_append.1 hx with hx | hx
        · exact le_of_lt (hl1b x hx)
        rcases List.mem_cons.1 hx with rfl | hx
        · exact le_rfl
        · exact hl2b x hx
      · rw [calculateOptimalTime, hD]; exact hres
  · rfl

/-- Witness for C1 on the §8 example day. -/
theorem claim_C1_witness :
    (∃ h ∈ exampleDayA, (6 ≤ h.hour ∧ h.hour ≤ 20) ∧ 3 ≤ h.uv ∧ h.uv ≤ 7) ∧
    (caseAPostcondition id exampleDayA ∧
      calculateOptimalTime id exampleDayA =
        some { startTime := "2024-06-01T08:00", endTime := "2024-06-01T12:00",
               uvMin := 4, uvMax := 6, reasonKey := "optimalUV", duration := 240,
               isGoodForVitaminD := true }) :=
  ⟨by decide, claim_C1 id exampleDayA (by decide)⟩

/-- **C4**: when every daylight sample has UV below 3 and some daylight
sample has UV at least 1, Case B applies: the run of meaningful hours
containing the day's peak-UV hour is selected and trimmed by the
peak-centered clamped 4-hour cut; the result carries `lowUVToday`,
`isGoodForVitaminD = false`, and duration 60 minutes per selected
sample. -/
theorem claim_C4 (fallback : String → String) (l : List HourlyUV) (d : HourlyUV)
    (ds : List HourlyUV) (hD : l.filter isDaylight = d :: ds)
    (hlow : ∀ h ∈ d :: ds, h.uv < 3)
    (hm : ∃ h ∈ d :: ds, (1 : ℚ) ≤ h.uv) :
    caseBPostcondition fallback l (jsReduceMaxUV d ds) ∧
    calculateOptimalTime fallback exampleDayB =
      some { startTime := "2024-06-01T11:00", endTime := "2024-06-01T15:00",
             uvMin := 1, uvMax := 2, reasonKey := "lowUVToday", duration := 240,
             isGoodForVitaminD := false } := by
  constructor
  · have hAnil : (d :: ds).filter isOptimalUV = [] := by
      rw [List.filter_eq_nil_iff]
      intro a ha
      rw [isOptimalUV_iff]
      intro hc
      exact absurd (hlow a ha) (by linarith [hc.1])
    have hall : (d :: ds).all isBelowOptimal = true := by
      rw [List.all_eq_true]
      intro x hx
      exact isBelowOptimal_iff.2 (hlow x hx)
    obtain ⟨hm0, hm0mem, hm0uv⟩ := hm
    have hmne : (d :: ds).filter isMeaningfulUV ≠ [] :=
      List.ne_nil_of_mem (List.mem_filter.2 ⟨hm0mem, isMeaningfulUV_iff.2 hm0uv⟩)
    obtain ⟨w0, ws0, hcw, hres⟩ := calcDaylight_caseB fallback d ds hAnil hall hmne
    have hpmem : jsReduceMaxUV d ds ∈ d :: ds := jsReduceMaxUV_mem d ds
    have hpuv : (1 : ℚ) ≤ (jsReduceMaxUV d ds).uv :=
      le_trans hm0uv (jsReduceMaxUV_le d ds hm0 hm0mem)
    have hpfil : jsReduceMaxUV d ds ∈ sortByHour ((d :: ds).filter isMeaningfulUV) :=
      mem_sortByHour.2 (List.mem_filter.2 ⟨hpmem, isMeaningfulUV_iff.2 hpuv⟩)
    obtain ⟨wp, hwp, hpinw⟩ := exists_window_mem hpfil
    rcases find?_decomp (hasPeakHour (jsReduceMaxUV d ds)) (w0 :: ws0) with
      ⟨hnone, hallf⟩ | ⟨l1, a, l2, hdec, hl1, hpa, hfd⟩
    · rw [hcw] at hwp
      have htrue : hasPeakHour (jsReduceMaxUV d ds) wp = true :=
        hasPeakHour_iff.2 ⟨jsReduceMaxUV d ds, hpinw, rfl⟩
      rw [hallf wp hwp] at htrue
      exact absurd htrue (by simp)
    · have hget : ((w0 :: ws0).find? (hasPeakHour (jsReduceMaxUV d ds))).getD w0 = a := by
        rw [hfd]
        rfl
      have hpk : ∃ h2 ∈ a, h2.hour = (jsReduceMaxUV d ds).hour := hasPeakHour_iff.1 hpa
      obtain ⟨ht1, ht2, ht3, ht4⟩ := trimToFour_spec (jsReduceMaxUV d ds) a hpk
      unfold caseBPostcondition
      rw [hD]
      refine ⟨a, l1, l2, ?_, ?_, hpk, ht4, ht1, ht2, ht3, ?_⟩
      · rw [hcw]; exact hdec
      · intro x hx h2 hh2 hcontra
        have htrue : hasPeakHour (jsReduceMaxUV d ds) x = true :=
          hasPeakHour_iff.2 ⟨h2, hh2, hcontra⟩
        rw [hl1 x hx] at htrue
        exact absurd htrue (by simp)
      · rw [calculateOptimalTime, hD, hres, hget]
  · rfl

/-- Witness for C4 on the low-UV example day: eight meaningful hours
9..16 with peak 2.0 at hour 13; the trimmed window is hours 11–14. -/
theorem claim_C4_witness :
    (exampleDayB.filter isDaylight = exampleDayBHead :: exampleDayBTail ∧
      (∀ h ∈ exampleDayBHead :: exampleDayBTail, h.uv < 3) ∧
      (∃ h ∈ exampleDayBHead :: exampleDayBTail, (1 : ℚ) ≤ h.uv)) ∧
    (caseBPostcondition id exampleDayB (jsReduceMaxUV exampleDayBHead exampleDayBTail) ∧
      calculateOptimalTime id exampleDayB =
        some { startTime := "2024-06-01T11:00", endTime := "2024-06-01T15:00",
               uvMin := 1, uvMax := 2, reasonKey := "lowUVToday", duration := 240,
               isGoodForVitaminD := false }) :=
  ⟨⟨by decide, by decide, by decide⟩,
    claim_C4 id exampleDayB exampleDayBHead exampleDayBTail (by decide) (by decide)
      (by decide)⟩

/-- **C6**: when no daylight sample is in the optimal band, some daylight
sample is at 3 or above (so Case B does not apply) and some daylight
sample has UV in [2,7], Case C applies: among the runs of safe hours the
first run starting before 12:00 local is selected (the first run overall
when none does), and the result carries `highUVToday` and
`isGoodForVitaminD = true` with UV range over exactly the run. -/
theorem claim_C6 (fallback : String → String) (l : List HourlyUV) (d : HourlyUV)
    (ds : List HourlyUV) (hD : l.filter isDaylight = d :: ds)
    (hnoA : ∀ h ∈ d :: ds, ¬(3 ≤ h.uv ∧ h.uv ≤ 7))
    (hnotlow : ∃ h ∈ d :: ds, ¬(h.uv < 3))
    (hsafe : ∃ h ∈ d :: ds, (2 : ℚ) ≤ h.uv ∧ h.uv ≤ 7) :
    caseCPostcondition fallback l ∧
    calculateOptimalTime fallback exampleDayC =
      some { startTime := "2024-06-01T08:00", endTime := "2024-06-01T10:00",
             uvMin := 2, uvMax := 2, reasonKey := "highUVToday", duration := 120,
             isGoodForVitaminD := true } := by
  constructor
  · have hAnil : (d :: ds).filter isOptimalUV = [] := by
      rw [List.filter_eq_nil_iff]
      intro a ha
      rw [isOptimalUV_iff]
      exact hnoA a ha
    have hlowf : (d :: ds).all isBelowOptimal = false := by
      obtain ⟨h0, hh0, hc⟩ := hnotlow
      by_contra hcon
      rw [Bool.not_eq_false, List.all_eq_true] at hcon
      exact hc (isBelowOptimal_iff.1 (hcon h0 hh0))
    obtain ⟨hs0, hs0mem, hs0uv⟩ := hsafe
    have hsne : (d :: ds).filter isSafeUV ≠ [] :=
      List.ne_nil_of_mem (List.mem_filter.2 ⟨hs0mem, isSafeUV_iff.2 hs0uv⟩)
    obtain ⟨w0, ws0, hcw, hres⟩ := calcDaylight_caseC fallback d ds hAnil hlowf hsne
    unfold caseCPostcondition
    rw [hD]
    rcases find?_decomp startsMorning (w0 :: ws0) with
      ⟨hnone, hallf⟩ | ⟨l1, a, l2, hdec, hl1, hpa, hfd⟩
    · refine ⟨w0, [], ws0, by rw [hcw, List.nil_append], Or.inr ⟨rfl, ?_⟩, ?_⟩
      · intro x hx hP
        have htrue : startsMorning x = true := startsMorning_iff.2 hP
        rw [hallf x (by simpa using hx)] at htrue
        exact absurd htrue (by simp)
      · rw [calculateOptimalTime, hD, hres, hnone]
        rfl
    · refine ⟨a, l1, l2, by rw [hcw]; exact hdec, Or.inl ⟨startsMorning_iff.1 hpa, ?_⟩, ?_⟩
      · intro x hx hP
        have htrue : startsMorning x = true := startsMorning_iff.2 hP
        rw [hl1 x hx] at htrue
        exact absurd htrue (by simp)
      · rw [calculateOptimalTime, hD, hres, hfd]
        rfl
  · rfl

/-- Witness for C6 on the high-UV example day: safe hours 8–9 form the
morning run. -/
theorem claim_C6_witness :
    (exampleDayC.filter isDaylight = exampleDayCHead :: exampleDayCTail ∧
      (∀ h ∈ exampleDayCHead :: exampleDayCTail, ¬(3 ≤ h.uv ∧ h.uv ≤ 7)) ∧
      (∃ h ∈ exampleDayCHead :: exampleDayCTail, ¬(h.uv < 3)) ∧
      (∃ h ∈ exampleDayCHead :: exampleDayCTail, (2 : ℚ) ≤ h.uv ∧ h.uv ≤ 7)) ∧
    (caseCPostcondition id exampleDayC ∧
      calculateOptimalTime id exampleDayC =
        some { startTime := "2024-06-01T08:00", endTime := "2024-06-01T10:00",
               uvMin := 2, uvMax := 2, reasonKey := "highUVToday", duration := 120,
               isGoodForVitaminD := true }) :=
  ⟨⟨by decide, by decide, by decide, by decide⟩,
    claim_C6 id exampleDayC exampleDayCHead exampleDayCTail (by decide) (by decide)
      (by decide) (by decide)⟩

/-- **C7**: `calculateOptimalTime` returns `none` exactly when there is no
daylight sample at all, or the Case D fallback applies (no optimal-UV
sample, not all below 3, no safe sample) and no daylight sample has hour
in [7,9]; in particular the empty input yields `none`, a plain value
rather than an error. -/
theorem claim_C7 (fallback : String → String) (l : List HourlyUV) :
    (calculateOptimalTime fallback l = none ↔
      l.filter isDaylight = [] ∨
      ((l.filter isDaylight).filter isOptimalUV = [] ∧
        ¬(∀ h ∈ l.filter isDaylight, h.uv < 3) ∧
        (l.filter isDaylight).filter isSafeUV = [] ∧
        (l.filter isDaylight).filter isEarlyHour = [])) ∧
    calculateOptimalTime fallback ([] : List HourlyUV) = none := by
  refine ⟨?_, rfl⟩
  unfold calculateOptimalTime
  cases hD : l.filter isDaylight with
  | nil => simp [calculateOptimalTimeDaylight]
  | cons d ds =>
    by_cases hA : (d :: ds).filter isOptimalUV = []
    · by_cases hlow : (d :: ds).all isBelowOptimal = true
      · have hforall : ∀ h ∈ d :: ds, h.uv < 3 :=
          fun h hh => isBelowOptimal_iff.1 (List.all_eq_true.1 hlow h hh)
        by_cases hm : (d :: ds).filter isMeaningfulUV = []
        · rw [calcDaylight_caseB0 fallback d ds hA hlow hm]
          refine iff_of_false (by simp) ?_
          rintro (habs | ⟨-, hnall, -, -⟩)
          · simp at habs
          · exact hnall hforall
        · obtain ⟨w0, ws0, hcw, hres⟩ := calcDaylight_caseB fallback d ds hA hlow hm
          rw [hres]
          refine iff_of_false (by simp) ?_
          rintro (habs | ⟨-, hnall, -, -⟩)
          · simp at habs
          · exact hnall hforall
      · have hlowf : (d :: ds).all isBelowOptimal = false := by
          rwa [Bool.not_eq_true] at hlow
        have hnall : ¬(∀ h ∈ d :: ds, h.uv < 3) := by
          intro hall
          apply hlow
          rw [List.all_eq_true]
          exact fun x hx => isBelowOptimal_iff.2 (hall x hx)
        by_cases hs : (d :: ds).filter isSafeUV = []
        · rw [calcDaylight_caseD fallback d ds hA hlowf hs]
          cases hE : (d :: ds).filter isEarlyHour with
          | nil => exact iff_of_true rfl (Or.inr ⟨hA, hnall, hs, rfl⟩)
          | cons e es =>
            refine iff_of_false (by simp) ?_
            rintro (habs | ⟨-, -, -, hEnil⟩)
            · simp at habs
            · simp at hEnil
        · obtain ⟨w0, ws0, hcw, hres⟩ := calcDaylight_caseC fallback d ds hA hlowf hs
          rw [hres]
          refine iff_of_false (by simp) ?_
          rintro (habs | ⟨-, -, hsafe, -⟩)
          · simp at habs
          · exact hs hsafe
    · obtain ⟨w0, ws0, hcw, hres⟩ := calcDaylight_caseA fallback d ds hA
      rw [hres]
      refine iff_of_false (by simp) ?_
      rintro (habs | ⟨hopt, -, -, -⟩)
      · simp at habs
      · exact hA hopt

/-! ## Golden hour lemmas -/

/-- Characters without `T` cannot start a match of `/T\d\d:\d\d/`. -/
theorem firstTimeMatch_append (pre : List Char) (hpre : 'T' ∉ pre) :
    ∀ rest : List Char, firstTimeMatch (pre ++ rest) = firstTimeMatch rest := by
  induction pre with
  | nil => intro rest; rfl
  | cons c cs ih =>
    intro rest
    have hc : c ≠ 'T' := fun hc => hpre (hc ▸ List.mem_cons_self _ _)
    rw [List.cons_append]
    simp only [firstTimeMatch, if_neg hc]
    exact ih (fun hm => hpre (List.mem_cons_of_mem _ hm)) rest

/-- At the `T`, the padded hour and minute digits are read back as their
numeric values. -/
theorem firstTimeMatch_pad2 :
    ∀ h : ℕ, h < 24 → ∀ m : ℕ, m < 60 →
      firstTimeMatch ('T' :: ((pad2 h).data ++ ':' :: (pad2 m).data)) = some (h, m) := by
  decide

/-- `takeWhile (· ≠ 'T')` of a `T`-free prefix followed by `T…` is the
prefix. -/
theorem takeWhile_until_T (pre : List Char) (hpre : 'T' ∉ pre) (rest : List Char) :
    (pre ++ 'T' :: rest).takeWhile (fun c => decide (c ≠ 'T')) = pre := by
  induction pre with
  | nil => simp [List.takeWhile]
  | cons c cs ih =>
    have hc : c ≠ 'T' := fun hc => hpre (hc ▸ List.mem_cons_self _ _)
    rw [List.cons_append, List.takeWhile_cons]
    simp only [decide_eq_true_eq] at *
    rw [if_pos hc]
    rw [ih (fun hm => hpre (List.mem_cons_of_mem _ hm))]

/-- `formatTimeWithOffset` with offset 0 renders the time unchanged. -/
theorem formatTimeWithOffset_zero :
    ∀ h : ℕ, h < 24 → ∀ m : ℕ, m < 60 →
      formatTimeWithOffset (h, m) 0 = pad2 h ++ ":" ++ pad2 m := by
  decide

/-- `formatTimeWithOffset` with offset 1 adds one hour modulo 24. -/
theorem formatTimeWithOffset_one :
    ∀ h : ℕ, h < 24 → ∀ m : ℕ, m < 60 →
      formatTimeWithOffset (h, m) 1 = pad2 ((h + 1) % 24) ++ ":" ++ pad2 m := by
  decide

/-- `formatTimeWithOffset` with offset -1 subtracts one hour modulo 24. -/
theorem formatTimeWithOffset_negOne :
    ∀ h : ℕ, h < 24 → ∀ m : ℕ, m < 60 →
      formatTimeWithOffset (h, m) (-1) = pad2 ((h + 23) % 24) ++ ":" ++ pad2 m := by
  decide

/-- String concatenation is associative (used to renormalize timestamps). -/
theorem strAppendAssoc (a b c : String) : a ++ b ++ c = a ++ (b ++ c) :=
  congrArg String.mk (List.append_assoc a.data b.data c.data)

/-- **C5**: for minute-precision local timestamps `<date>THH:MM` sharing a
date without a `T` in it, `calculateGoldenHour` returns exactly
morningStart = sunrise, morningEnd = sunrise + 1 hour (mod 24),
eveningStart = sunset - 1 hour (mod 24), eveningEnd = sunset, with no
dependency on UV data (its arguments are only the two timestamps); in
particular sunrise 06:30 and sunset 19:45 give morningEnd 07:30 and
eveningStart 18:45. -/
theorem claim_C5 (today : String) (d1 : List Char) (h1 m1 h2 m2 : ℕ)
    (hne : d1 ≠ []) (hnoT : 'T' ∉ d1)
    (hh1 : h1 < 24) (hm1 : m1 < 60) (hh2 : h2 < 24) (hm2 : m2 < 60) :
    calculateGoldenHour today (⟨d1⟩ ++ "T" ++ pad2 h1 ++ ":" ++ pad2 m1)
        (⟨d1⟩ ++ "T" ++ pad2 h2 ++ ":" ++ pad2 m2) =
      { morningStart := ⟨d1⟩ ++ "T" ++ pad2 h1 ++ ":" ++ pad2 m1
        morningEnd := ⟨d1⟩ ++ "T" ++ pad2 ((h1 + 1) % 24) ++ ":" ++ pad2 m1
        eveningStart := ⟨d1⟩ ++ "T" ++ pad2 ((h2 + 23) % 24) ++ ":" ++ pad2 m2
        eveningEnd := ⟨d1⟩ ++ "T" ++ pad2 h2 ++ ":" ++ pad2 m2 } ∧
    calculateGoldenHour today "2024-06-01T06:30" "2024-06-01T19:45" =
      { morningStart := "2024-06-01T06:30", morningEnd := "2024-06-01T07:30",
        eveningStart := "2024-06-01T18:45", eveningEnd := "2024-06-01T19:45" } := by
  constructor
  · have hT : ("T" : String).data = ['T'] := rfl
    have hColon : (":" : String).data = [':'] := rfl
    have hdata1 : (⟨d1⟩ ++ "T" ++ pad2 h1 ++ ":" ++ pad2 m1 : String).data =
        d1 ++ 'T' :: ((pad2 h1).data ++ ':' :: (pad2 m1).data) := by
      simp [String.data_append, hT, hColon]
    have hdata2 : (⟨d1⟩ ++ "T" ++ pad2 h2 ++ ":" ++ pad2 m2 : String).data =
        d1 ++ 'T' :: ((pad2 h2).data ++ ':' :: (pad2 m2).data) := by
      simp [String.data_append, hT, hColon]
    have hex1 : extractTime (⟨d1⟩ ++ "T" ++ pad2 h1 ++ ":" ++ pad2 m1) = (h1, m1) := by
      unfold extractTime
      rw [hdata1, firstTimeMatch_append d1 hnoT, firstTimeMatch_pad2 h1 hh1 m1 hm1]
      rfl
    have hex2 : extractTime (⟨d1⟩ ++ "T" ++ pad2 h2 ++ ":" ++ pad2 m2) = (h2, m2) := by
      unfold extractTime
      rw [hdata2, firstTimeMatch_append d1 hnoT, firstTimeMatch_pad2 h2 hh2 m2 hm2]
      rfl
    have hbase : (⟨d1⟩ ++ "T" ++ pad2 h1 ++ ":" ++ pad2 m1 : String).data.takeWhile
        (fun c => decide (c ≠ 'T')) = d1 := by
      rw [hdata1]
      exact takeWhile_until_T d1 hnoT _
    simp only [calculateGoldenHour]
    rw [hex1, hex2, hbase, if_neg ?hcond]
    case hcond =>
      rw [List.isEmpty_iff]
      exact hne
    rw [formatTimeWithOffset_zero h1 hh1 m1 hm1, formatTimeWithOffset_one h1 hh1 m1 hm1,
      formatTimeWithOffset_negOne h2 hh2 m2 hm2, formatTimeWithOffset_zero h2 hh2 m2 hm2]
    simp only [strAppendAssoc]
  · rfl

/-! ## Solar position: numeric groundwork for the November 1 instant -/

/-- The Julian century of `novDate`, evaluated exactly. -/
theorem novT_eq : julianCentury novDate = 783777599 / 3155760000 := by
  norm_num [julianCentury, getJulianDay, dateHours, novDate]

/-- Bounds on the mean obliquity polynomial at `novDate`. -/
theorem novEps0_bounds :
    (234 : ℚ) / 10 ≤ epsilon0Deg (julianCentury novDate) ∧
      epsilon0Deg (julianCentury novDate) ≤ 235 / 10 := by
  rw [novT_eq]
  constructor <;> norm_num [epsilon0Deg]

/-- Bounds on the eccentricity at `novDate`. -/
theorem novEcc_bounds :
    (16 : ℚ) / 1000 ≤ eccentricityEarthOrbit (julianCentury novDate) ∧
      eccentricityEarthOrbit (julianCentury novDate) ≤ 17 / 1000 := by
  rw [novT_eq]
  constructor <;> norm_num [eccentricityEarthOrbit]

/-- The corrected obliquity at `novDate` lies between 23 and 24 degrees. -/
theorem novObliquity_bounds :
    (23 : ℝ) ≤ obliquity (julianCentury novDate) ∧
      obliquity (julianCentury novDate) ≤ 24 := by
  unfold obliquity
  have hc1 := Real.neg_one_le_cos (((omegaDeg (julianCentury novDate) : ℝ) * Real.pi) / 180)
  have hc2 := Real.cos_le_one (((omegaDeg (julianCentury novDate) : ℝ) * Real.pi) / 180)
  have h1a : ((234 / 10 : ℚ) : ℝ) ≤ ((epsilon0Deg (julianCentury novDate) : ℚ) : ℝ) :=
    Rat.cast_le.2 novEps0_bounds.1
  have h1b : ((epsilon0Deg (julianCentury novDate) : ℚ) : ℝ) ≤ ((235 / 10 : ℚ) : ℝ) :=
    Rat.cast_le.2 novEps0_bounds.2
  push_cast at h1a h1b
  constructor <;> nlinarith

/-- The declination at `novDate` is at most `24 * π / 180` radians in
absolute value. -/
theorem novDecl_bounds :
    |declination (julianCentury novDate)| ≤ 24 * Real.pi / 180 := by
  unfold declination
  have hπ := Real.pi_pos
  have hob := novObliquity_bounds
  set lr : ℝ := (apparentLongitude (julianCentury novDate) * Real.pi) / 180 with hlr
  set er : ℝ := (obliquity (julianCentury novDate) * Real.pi) / 180 with her
  have h1 : 0 ≤ er := by
    rw [her]
    apply div_nonneg _ (by norm_num)
    nlinarith [hob.1]
  have h2 : er ≤ 24 * Real.pi / 180 := by
    rw [her]
    have hnum : obliquity (julianCentury novDate) * Real.pi ≤ 24 * Real.pi := by
      nlinarith [hob.2]
    linarith
  have h3 : er ≤ Real.pi / 2 := by linarith
  have hsnn : 0 ≤ Real.sin er := Real.sin_nonneg_of_nonneg_of_le_pi h1 (by linarith)
  have hs1 : |Real.sin lr| ≤ 1 := abs_le.2 ⟨Real.neg_one_le_sin lr, Real.sin_le_one lr⟩
  have habs : |Real.sin er * Real.sin lr| ≤ Real.sin er := by
    rw [abs_mul, abs_of_nonneg hsnn]
    calc Real.sin er * |Real.sin lr| ≤ Real.sin er * 1 :=
          mul_le_mul_of_nonneg_left hs1 hsnn
      _ = Real.sin er := mul_one _
  have hprod := abs_le.1 habs
  have harcup : Real.arcsin (Real.sin er * Real.sin lr) ≤ er := by
    have hm := Real.monotone_arcsin hprod.2
    rwa [Real.arcsin_sin (by linarith) h3] at hm
  have harclow : -er ≤ Real.arcsin (Real.sin er * Real.sin lr) := by
    have hlow : -Real.sin er ≤ Real.sin er * Real.sin lr := by linarith [hprod.1]
    have hm := Real.monotone_arcsin hlow
    rwa [Real.arcsin_neg, Real.arcsin_sin (by linarith) h3] at hm
  rw [abs_le]
  constructor <;> linarith

set_option maxHeartbeats 1600000 in
/-- Crude bound for the equation-of-time expression with all the
trigonometric factors abstracted into bounded variables. -/
theorem eqTimeAux_bound (F y e s1 s2 c1 s4 s5 : ℝ)
    (hy : 0 ≤ y ∧ y ≤ 1) (he : 0 ≤ e ∧ e ≤ 17 / 1000)
    (hs1 : -1 ≤ s1 ∧ s1 ≤ 1) (hs2 : -1 ≤ s2 ∧ s2 ≤ 1)
    (hc1 : -1 ≤ c1 ∧ c1 ≤ 1) (hs4 : -1 ≤ s4 ∧ s4 ≤ 1)
    (hs5 : -1 ≤ s5 ∧ s5 ≤ 1) (hF : 0 < F ∧ F ≤ 60) :
    |4 * F * (y * s1 - 2 * e * s2 + 4 * e * y * s2 * c1
      - 0.5 * y * y * s4 - 1.25 * e * e * s5)| ≤ 510 := by
  have hm1a : y * s1 ≤ y * 1 := mul_le_mul_of_nonneg_left hs1.2 hy.1
  have hm1b : y * (-1) ≤ y * s1 := mul_le_mul_of_nonneg_left hs1.1 hy.1
  have hm2a : e * s2 ≤ e * 1 := mul_le_mul_of_nonneg_left hs2.2 he.1
  have hm2b : e * (-1) ≤ e * s2 := mul_le_mul_of_nonneg_left hs2.1 he.1
  have hey0 : 0 ≤ e * y := mul_nonneg he.1 hy.1
  have hey : e * y ≤ 17 / 1000 := by
    calc e * y ≤ e * 1 := mul_le_mul_of_nonneg_left hy.2 he.1
      _ = e := mul_one _
      _ ≤ 17 / 1000 := he.2
  have p1 : 0 ≤ (1 - s2) * (1 - c1) := mul_nonneg (by linarith) (by linarith)
  have p2 : 0 ≤ (1 + s2) * (1 + c1) := mul_nonneg (by linarith) (by linarith)
  have p3 : 0 ≤ (1 - s2) * (1 + c1) := mul_nonneg (by linarith) (by linarith)
  have p4 : 0 ≤ (1 + s2) * (1 - c1) := mul_nonneg (by linarith) (by linarith)
  have hsc1 : -1 ≤ s2 * c1 := by nlinarith
  have hsc2 : s2 * c1 ≤ 1 := by nlinarith
  have hm3a : (e * y) * (s2 * c1) ≤ (e * y) * 1 := mul_le_mul_of_nonneg_left hsc2 hey0
  have hm3b : (e * y) * (-1) ≤ (e * y) * (s2 * c1) := mul_le_mul_of_nonneg_left hsc1 hey0
  have hyy0 : 0 ≤ y * y := mul_nonneg hy.1 hy.1
  have hyy : y * y ≤ 1 := by nlinarith [hy.1, hy.2]
  have hm4a : (y * y) * s4 ≤ (y * y) * 1 := mul_le_mul_of_nonneg_left hs4.2 hyy0
  have hm4b : (y * y) * (-1) ≤ (y * y) * s4 := mul_le_mul_of_nonneg_left hs4.1 hyy0
  have hee0 : 0 ≤ e * e := mul_nonneg he.1 he.1
  have hee : e * e ≤ 289 / 1000000 := by nlinarith [he.1, he.2]
  have hm5a : (e * e) * s5 ≤ (e * e) * 1 := mul_le_mul_of_nonneg_left hs5.2 hee0
  have hm5b : (e * e) * (-1) ≤ (e * e) * s5 := mul_le_mul_of_nonneg_left hs5.1 hee0
  have hSup : y * s1 - 2 * e * s2 + 4 * e * y * s2 * c1
      - 0.5 * y * y * s4 - 1.25 * e * e * s5 ≤ 17 / 10 := by
    linarith [hm1a, hm2b, hm3a, hm4b, hm5b, hy.2, he.2, hey, hyy, hee]
  have hSlow : -(17 / 10) ≤ y * s1 - 2 * e * s2 + 4 * e * y * s2 * c1
      - 0.5 * y * y * s4 - 1.25 * e * e * s5 := by
    linarith [hm1b, hm2a, hm3b, hm4a, hm5a, hy.2, he.2, hey, hyy, hee]
  have hF4 : (0 : ℝ) ≤ 4 * F := by linarith [hF.1]
  have hup1 : 4 * F * (y * s1 - 2 * e * s2 + 4 * e * y * s2 * c1
      - 0.5 * y * y * s4 - 1.25 * e * e * s5) ≤ 4 * F * (17 / 10) :=
    mul_le_mul_of_nonneg_left hSup hF4
  have hlow1 : 4 * F * (-(17 / 10)) ≤ 4 * F * (y * s1 - 2 * e * s2
      + 4 * e * y * s2 * c1 - 0.5 * y * y * s4 - 1.25 * e * e * s5) :=
    mul_le_mul_of_nonneg_left hSlow hF4
  have hcap : 4 * F * (17 / 10) ≤ 408 := by linarith [hF.2]
  rw [abs_le]
  constructor <;> linarith [hup1, hlow1, hcap]

/-- The equation of time at `novDate` is smaller than 510 minutes in
absolute value (a deliberately crude bound: it only needs to keep the
chosen longitude inside `[-180, 180]`). -/
theorem novEqTime_bounds : |equationOfTime (julianCentury novDate)| ≤ 510 := by
  simp only [equationOfTime]
  have hπ := Real.pi_pos
  have hπ3 := Real.pi_gt_three
  have hob := novObliquity_bounds
  set er : ℝ := (obliquity (julianCentury novDate) * Real.pi) / 180 with her
  have h1 : 0 ≤ er := by
    rw [her]
    apply div_nonneg _ (by norm_num)
    nlinarith [hob.1]
  have h2 : er ≤ 24 * Real.pi / 180 := by
    rw [her]
    have hnum : obliquity (julianCentury novDate) * Real.pi ≤ 24 * Real.pi := by
      nlinarith [hob.2]
    linarith
  have ht0 : 0 ≤ Real.tan (er / 2) :=
    Real.tan_nonneg_of_nonneg_of_le_pi_div_two (by linarith) (by linarith)
  have ht1 : Real.tan (er / 2) ≤ 1 := by
    have hlt : er / 2 < Real.pi / 4 := by linarith
    have hmono := Real.strictMonoOn_tan (Set.mem_Ioo.2 ⟨by linarith, by linarith⟩)
      (Set.mem_Ioo.2 ⟨by linarith, by linarith⟩) hlt
    rw [Real.tan_pi_div_four] at hmono
    linarith
  have he1 : ((16 / 1000 : ℚ) : ℝ) ≤ ((eccentricityEarthOrbit (julianCentury novDate) : ℚ) : ℝ) :=
    Rat.cast_le.2 novEcc_bounds.1
  have he2 : ((eccentricityEarthOrbit (julianCentury novDate) : ℚ) : ℝ) ≤ ((17 / 1000 : ℚ) : ℝ) :=
    Rat.cast_le.2 novEcc_bounds.2
  push_cast at he1 he2
  refine eqTimeAux_bound _ _ _ _ _ _ _ _ ⟨mul_nonneg ht0 ht0, by nlinarith⟩
    ⟨by linarith, he2⟩ ⟨Real.neg_one_le_sin _, Real.sin_le_one _⟩
    ⟨Real.neg_one_le_sin _, Real.sin_le_one _⟩
    ⟨Real.neg_one_le_cos _, Real.cos_le_one _⟩
    ⟨Real.neg_one_le_sin _, Real.sin_le_one _⟩
    ⟨Real.neg_one_le_sin _, Real.sin_le_one _⟩
    ⟨by positivity, ?_⟩
  rw [div_le_iff₀ hπ]
  linarith

/-- The chosen longitude `novLon` is a valid in-range longitude. -/
theorem novLon_bounds : -180 ≤ novLon ∧ novLon ≤ 180 := by
  unfold novLon
  have hdh : ((dateHours novDate : ℚ) : ℝ) = 86399 / 3600 := by
    norm_num [dateHours, novDate]
  have heq := abs_le.1 novEqTime_bounds
  rw [hdh]
  constructor <;> [linarith [heq.2]; linarith [heq.1]]

/-- At `novDate` and `novLon` the hour angle is exactly 180 degrees. -/
theorem novLon_hourAngle : hourAngleDeg novDate novLon = 180 := by
  unfold hourAngleDeg solarTimeMinutes novLon
  ring

/-- The elevation is always `90 - arccos(...) * 180 / π` for some clamped
argument. -/
theorem getSunPosition_elevation_shape (lat lon : ℝ) (date : UTCDate) :
    ∃ X, (getSunPosition lat lon date).elevation =
      90 - (Real.arccos X * 180) / Real.pi :=
  ⟨_, rfl⟩

/-- The azimuth is `0`, `360 - arccos(...) * 180 / π` or
`arccos(...) * 180 / π`, matching the three branches of the code. -/
theorem getSunPosition_azimuth_shape (lat lon : ℝ) (date : UTCDate) :
    (getSunPosition lat lon date).azimuth = 0 ∨
    (∃ X, (getSunPosition lat lon date).azimuth =
      360 - (Real.arccos X * 180) / Real.pi) ∨
    (∃ X, (getSunPosition lat lon date).azimuth =
      (Real.arccos X * 180) / Real.pi) := by
  simp only [getSunPosition]
  split_ifs
  · exact Or.inl rfl
  · exact Or.inr (Or.inl ⟨_, rfl⟩)
  · exact Or.inr (Or.inr ⟨_, rfl⟩)

/-- An arccosine scaled to degrees lies in `[0, 180]`. -/
theorem arccosDeg_bounds (x : ℝ) :
    0 ≤ (Real.arccos x * 180) / Real.pi ∧ (Real.arccos x * 180) / Real.pi ≤ 180 := by
  have hπ := Real.pi_pos
  have h1 := Real.arccos_nonneg x
  have h2 := Real.arccos_le_pi x
  constructor
  · positivity
  · rw [div_le_iff₀ hπ]
    nlinarith

set_option maxHeartbeats 1000000 in
/-- At latitude 60°, longitude `novLon` and instant `novDate` the azimuth
is exactly 360 degrees: the hour angle is exactly 180°, so the clamped
`acos` argument is exactly 1 and the afternoon correction yields
`360 - 0`. -/
theorem novAzimuth_eq : (getSunPosition 60 novLon novDate).azimuth = 360 := by
  have hπ := Real.pi_pos
  have hδb := abs_le.1 novDecl_bounds
  simp only [getSunPosition]
  set δ := declination (julianCentury novDate) with hδdef
  rw [novLon_hourAngle]
  have h180 : ((180 : ℝ) * Real.pi) / 180 = Real.pi := by ring
  rw [h180, Real.cos_pi]
  have hφ : ((60 : ℝ) * Real.pi) / 180 = Real.pi / 3 := by ring
  rw [hφ]
  have hsum1 : Real.pi / 6 ≤ Real.pi / 3 + δ := by
    have h := hδb.1
    linarith
  have hsum2 : Real.pi / 3 + δ ≤ Real.pi / 2 := by
    have h := hδb.2
    linarith
  have hsin : 1 / 2 ≤ Real.sin (Real.pi / 3 + δ) := by
    have h6 := Real.sin_pi_div_six
    have hmono := Real.strictMonoOn_sin.monotoneOn
      (Set.mem_Icc.2 ⟨by linarith, by linarith⟩)
      (Set.mem_Icc.2 ⟨by linarith, by linarith⟩) hsum1
    linarith
  have hcz : Real.sin (Real.pi / 3) * Real.sin δ
      + Real.cos (Real.pi / 3) * Real.cos δ * (-1) = -Real.cos (Real.pi / 3 + δ) := by
    rw [Real.cos_add]
    ring
  rw [hcz]
  have hc1 : -Real.cos (Real.pi / 3 + δ) ≤ 1 := by
    linarith [Real.neg_one_le_cos (Real.pi / 3 + δ)]
  have hc2 : (-1 : ℝ) ≤ -Real.cos (Real.pi / 3 + δ) := by
    linarith [Real.cos_le_one (Real.pi / 3 + δ)]
  rw [min_eq_right hc1, max_eq_right hc2]
  have hzen : Real.arccos (-Real.cos (Real.pi / 3 + δ)) =
      Real.pi - (Real.pi / 3 + δ) := by
    rw [Real.arccos_neg, Real.arccos_cos (by linarith) (by linarith)]
  rw [hzen, Real.sin_pi_sub]
  have hdeg : ¬(|Real.sin (Real.pi / 3 + δ)| < 0.0001) := by
    rw [abs_of_nonneg (by linarith : (0 : ℝ) ≤ Real.sin (Real.pi / 3 + δ))]
    exact not_lt.2 (by linarith)
  rw [if_neg hdeg, if_pos (by norm_num : (180 : ℝ) > 0)]
  have hcos3 := Real.cos_pi_div_three
  have hden : Real.cos (Real.pi / 3) * Real.sin (Real.pi / 3 + δ) ≠ 0 := by
    rw [hcos3]
    exact ne_of_gt (by nlinarith)
  have hnum : Real.sin δ - Real.sin (Real.pi / 3) * -Real.cos (Real.pi / 3 + δ)
      = Real.cos (Real.pi / 3) * Real.sin (Real.pi / 3 + δ) := by
    rw [Real.cos_add, Real.sin_add]
    linear_combination (-Real.sin δ) * Real.sin_sq_add_cos_sq (Real.pi / 3)
  rw [hnum, div_self hden, min_self,
    max_eq_right (by norm_num : (-1 : ℝ) ≤ 1), Real.arccos_one, zero_mul,
    zero_div, sub_zero]

/-- **C3 (amended)**: for every latitude, longitude and UTC instant the
returned position satisfies `elevationDegrees ∈ [-90, 90]` and
`azimuthDegrees ∈ [0, 360]` — the closed upper bound, since 360 is
attained (see the counterexample): the azimuth comes from the clamped
`acos`, is replaced by `360 - azimuth` when the hour angle is positive,
and is 0 in the degenerate case. -/
theorem claim_C3 (lat lon : ℝ) (date : UTCDate) :
    (-90 ≤ (getSunPosition lat lon date).elevation ∧
      (getSunPosition lat lon date).elevation ≤ 90) ∧
    (0 ≤ (getSunPosition lat lon date).azimuth ∧
      (getSunPosition lat lon date).azimuth ≤ 360) := by
  constructor
  · obtain ⟨X, hX⟩ := getSunPosition_elevation_shape lat lon date
    have hb := arccosDeg_bounds X
    rw [hX]
    constructor <;> linarith [hb.1, hb.2]
  · rcases getSunPosition_azimuth_shape lat lon date with h | ⟨X, hX⟩ | ⟨X, hX⟩
    · rw [h]
      norm_num
    · have hb := arccosDeg_bounds X
      rw [hX]
      constructor <;> linarith [hb.1, hb.2]
    · have hb := arccosDeg_bounds X
      rw [hX]
      constructor <;> linarith [hb.1, hb.2]

/-- **C3 counterexample**: at the valid in-range input latitude 60,
longitude `novLon` (proved to lie in `[-180, 180]`) and instant
2024-11-01T23:59:59Z, the code returns azimuth exactly 360, which is not
in the claimed half-open range `[0, 360)`. -/
theorem claim_C3_counterexample :
    ((-90 : ℝ) ≤ 60 ∧ (60 : ℝ) ≤ 90) ∧
    (-180 ≤ novLon ∧ novLon ≤ 180) ∧
    (getSunPosition 60 novLon novDate).azimuth = 360 ∧
    ¬((getSunPosition 60 novLon novDate).azimuth < 360) :=
  ⟨⟨by norm_num, by norm_num⟩, novLon_bounds, novAzimuth_eq,
    by rw [novAzimuth_eq]; exact lt_irrefl _⟩

/-- Witness for C5 at sunrise 06:30 and sunset 19:45 on 2024-06-01. -/
theorem claim_C5_witness :
    (baseDateChars ≠ [] ∧ 'T' ∉ baseDateChars ∧
      6 < 24 ∧ 30 < 60 ∧ 19 < 24 ∧ 45 < 60) ∧
    (calculateGoldenHour "" (⟨baseDateChars⟩ ++ "T" ++ pad2 6 ++ ":" ++ pad2 30)
        (⟨baseDateChars⟩ ++ "T" ++ pad2 19 ++ ":" ++ pad2 45) =
      { morningStart := ⟨baseDateChars⟩ ++ "T" ++ pad2 6 ++ ":" ++ pad2 30
        morningEnd := ⟨baseDateChars⟩ ++ "T" ++ pad2 ((6 + 1) % 24) ++ ":" ++ pad2 30
        eveningStart := ⟨baseDateChars⟩ ++ "T" ++ pad2 ((19 + 23) % 24) ++ ":" ++ pad2 45
        eveningEnd := ⟨baseDateChars⟩ ++ "T" ++ pad2 19 ++ ":" ++ pad2 45 } ∧
      calculateGoldenHour "" "2024-06-01T06:30" "2024-06-01T19:45" =
        { morningStart := "2024-06-01T06:30", morningEnd := "2024-06-01T07:30",
          eveningStart := "2024-06-01T18:45", eveningEnd := "2024-06-01T19:45" }) :=
  ⟨⟨by decide, by decide, by decide, by decide, by decide, by decide⟩,
    claim_C5 "" baseDateChars 6 30 19 45 (by decide) (by decide) (by decide)
      (by decide) (by decide) (by decide)⟩

end SunOpt
